import Mathlib

/-!
Verification development for the household energy-consumption tracker
(Express/Sequelize REST service).  The JavaScript route handlers are
shallowly embedded as pure Lean functions:

* JS `Date` values produced by `Date.UTC(y, m, d)` at midnight are embedded
  as civil calendar triples (`CivilDate`); millisecond arithmetic in whole
  days (`addDaysUTC`) is embedded as calendar-day succession, which agrees
  with `new Date(dt.getTime() + days*86400000)` on midnight-UTC dates.
* JS numbers occurring in the handlers are embedded as exact rationals
  (`ℚ`); `x.toFixed(d)` is embedded as decimal rounding (half away from
  zero at ties, the `toFixed` rule for positive values).
* The SQL store is embedded as lists of typed rows; each handler becomes a
  function from request body and store to (response, store).
* `todayISO()` (ambient wall clock) is passed as an explicit parameter.
-/

namespace EnergyTracker

/-- A civil calendar date as observed through a JS `Date` object's
`getUTCFullYear` / `getUTCMonth` / `getUTCDate` getters.  `month` is
0-based (0..11) exactly as `getUTCMonth` returns it. -/
structure CivilDate where
  year : Int
  month : Int
  day : Int
deriving DecidableEq, Repr

/-- Gregorian leap-year rule (the rule implemented by the JS `Date`
library used via `Date.UTC`). -/
def isLeapYear (y : Int) : Bool :=
  (Int.emod y 4 == 0 && Int.emod y 100 != 0) || Int.emod y 400 == 0

/-- Number of days in month `m` (0-based) of year `y`.  Embeds the source
idiom `new Date(Date.UTC(ty, tm + 1, 0)).getUTCDate()` (day 0 of the next
month is the last day of month `tm`). -/
def daysInMonth (y m : Int) : Int :=
  if m = 1 then (if isLeapYear y then 29 else 28)
  else if m = 3 ∨ m = 5 ∨ m = 8 ∨ m = 10 then 30
  else 31

/-- Calendar successor of a civil date. -/
def nextDay (c : CivilDate) : CivilDate :=
  if c.day < daysInMonth c.year c.month then ⟨c.year, c.month, c.day + 1⟩
  else if c.month < 11 then ⟨c.year, c.month + 1, 1⟩
  else ⟨c.year + 1, 0, 1⟩

/-- Calendar predecessor of a civil date. -/
def prevDay (c : CivilDate) : CivilDate :=
  if 1 < c.day then ⟨c.year, c.month, c.day - 1⟩
  else if 0 < c.month then ⟨c.year, c.month - 1, daysInMonth c.year (c.month - 1)⟩
  else ⟨c.year - 1, 11, 31⟩

def addDaysFwd : Nat → CivilDate → CivilDate
  | 0, c => c
  | n + 1, c => addDaysFwd n (nextDay c)

def addDaysBwd : Nat → CivilDate → CivilDate
  | 0, c => c
  | n + 1, c => addDaysBwd n (prevDay c)

/-- Embeds `addDaysUTC(dt, days) = new Date(dt.getTime() + days*24*60*60*1000)`
(whole-day millisecond shifts on midnight-UTC dates are calendar-day shifts). -/
def addDaysUTC (dt : CivilDate) (days : Int) : CivilDate :=
  if 0 ≤ days then addDaysFwd days.toNat dt else addDaysBwd (-days).toNat dt

/-- Embeds `addMonthsUTC` from the limits router: target month index by
`Math.floor` division (`Int.fdiv`) and JS truncated remainder
(`Int.tmod`), day-of-month clamped to the target month's length. -/
def addMonthsUTC (dt : CivilDate) (months : Int) : CivilDate :=
  let targetMonthIndex := dt.month + months
  let ty := dt.year + Int.fdiv targetMonthIndex 12
  let tm := Int.tmod (Int.tmod targetMonthIndex 12 + 12) 12
  let lastDay := daysInMonth ty tm
  let day := min dt.day lastDay
  ⟨ty, tm, day⟩

/-- Embeds `addYearsUTC(dt, years) = addMonthsUTC(dt, years * 12)`. -/
def addYearsUTC (dt : CivilDate) (years : Int) : CivilDate :=
  addMonthsUTC dt (years * 12)

/-- The three numeric components of a request date string matching the
regex `^\d{4}-\d{2}-\d{2}$` (so `0 ≤ y ≤ 9999`, `0 ≤ m, d ≤ 99`);
components are 1-based as in the string. -/
structure Ymd where
  y : Int
  m : Int
  d : Int
deriving DecidableEq, Repr

/-- Embeds `parseDateUTC(s) = new Date(Date.UTC(y, m - 1, d))`.  All call
sites apply it only to strings already accepted by `isValidISODate`, on
which `Date.UTC` performs no normalization, so the embedding is the plain
triple with a 0-based month. -/
def parseDateUTC (s : Ymd) : CivilDate :=
  ⟨s.y, s.m - 1, s.d⟩

/-- Embeds `isValidISODate`: the regex bounds together with the
`Date.UTC` round-trip check (`getUTCFullYear/Month/Date` must reproduce
the parsed components).  The round-trip succeeds exactly when no
normalization occurs, i.e. `1 ≤ m ≤ 12` and `1 ≤ d ≤` the month length —
except that `Date.UTC` maps years 0..99 to 1900..1999, so those years
always fail the year comparison; hence `100 ≤ y`. -/
def isValidISODate (s : Ymd) : Bool :=
  100 ≤ s.y && s.y ≤ 9999 && 1 ≤ s.m && s.m ≤ 12 &&
    1 ≤ s.d && s.d ≤ daysInMonth s.y (s.m - 1)

/-- Embeds `pad2(n) = String(n).padStart(2, '0')` for the nonnegative
numbers it is applied to. -/
def pad2 (n : Int) : String :=
  let s := toString n
  if s.length < 2 then "0" ++ s else s

/-- Embeds `formatDateUTC`: `${y}-${pad2(m + 1)}-${pad2(d)}` (note the
year is NOT padded to four digits). -/
def formatDateUTC (dt : CivilDate) : String :=
  toString dt.year ++ "-" ++ pad2 (dt.month + 1) ++ "-" ++ pad2 dt.day

/-- The literal request string whose regex components are `s` (4-digit
year, 2-digit month and day); this is the value JS compares with `!==`
against `formatDateUTC` output. -/
def pad4 (n : Int) : String :=
  let s := toString n
  if s.length < 4 then String.mk (List.replicate (4 - s.length) (Char.ofNat 48)) ++ s else s

def isoRaw (s : Ymd) : String :=
  pad4 s.y ++ "-" ++ pad2 s.m ++ "-" ++ pad2 s.d

/-- Embeds `calcAutoPeriodEnd` at the date level (the source formats the
result with `formatDateUTC`; see `calcAutoPeriodEnd`). -/
def calcAutoPeriodEndDate (periodType : String) (startDt : CivilDate) : Option CivilDate :=
  if periodType = "week" then some (addDaysUTC startDt 6)
  else if periodType = "month" then some (addDaysUTC (addMonthsUTC startDt 1) (-1))
  else if periodType = "year" then some (addDaysUTC (addYearsUTC startDt 1) (-1))
  else none

/-- Embeds `calcAutoPeriodEnd(periodType, startStr)` (returns the
formatted end-date string, or null for unknown period types). -/
def calcAutoPeriodEnd (periodType : String) (start : Ymd) : Option String :=
  (calcAutoPeriodEndDate periodType (parseDateUTC start)).map formatDateUTC

/-- The end date described by the month clause of the period-calculation
spec, written from its words: add one month to the start, clamping the
day of month to the shorter target month's length, then go back one day.
Stated directly on the 1-based components, independent of the generic
month-index arithmetic the code uses. -/
def monthEndSpec (s : Ymd) : CivilDate :=
  let ty : Int := if s.m = 12 then s.y + 1 else s.y
  let tm : Int := if s.m = 12 then 0 else s.m
  let dcl : Int := min s.d (daysInMonth ty tm)
  if 1 < dcl then ⟨ty, tm, dcl - 1⟩
  else if 0 < tm then ⟨ty, tm - 1, daysInMonth ty (tm - 1)⟩
  else ⟨ty - 1, 11, 31⟩

/-- Date comparison of two stored `DATEONLY` values (SQL `<=`), i.e.
calendar order; on the wire these are zero-padded `YYYY-MM-DD` strings,
on which lexicographic string comparison coincides with calendar order. -/
def dateLE (a b : CivilDate) : Bool :=
  a.year < b.year ||
    (a.year == b.year && (a.month < b.month ||
      (a.month == b.month && a.day ≤ b.day)))

/-- Embeds `isAfter(dateA, dateB) = String(dateA) > String(dateB)` on two
valid ISO date strings of equal layout, where lexicographic comparison is
calendar order on the components. -/
def ymdIsAfter (a b : Ymd) : Bool :=
  b.y < a.y || (b.y == a.y && (b.m < a.m || (b.m == a.m && b.d < a.d)))

/-! JSON request values and JS coercions used by the handlers. -/

/-- A JSON body field value as the handlers inspect it (`=== true`,
`=== false`, `Boolean(v)`, `parseBool`).  Absent fields (`undefined`) are
modelled by `Option` at each use site. -/
inductive JSVal where
  | vBool (b : Bool)
  | vNum (q : ℚ)
  | vStr (s : String)
  | vNull
deriving DecidableEq, Repr

/-- JS truthiness, `Boolean(v)` (`NaN` is not representable in `ℚ` and
does not occur in the modelled flows). -/
def jsTruthy : JSVal → Bool
  | .vBool b => b
  | .vNum q => !(q == 0)
  | .vStr s => !(s == "")
  | .vNull => false

/-- Embeds `parseBool` (shared by the limits and admin routers); `none`
is the source's `null` result meaning "not a boolean". -/
def parseBool : JSVal → Option Bool
  | .vBool b => some b
  | .vNum q => if q == 1 then some true else if q == 0 then some false else none
  | .vStr s =>
      if s = "true" then some true
      else if s = "false" then some false
      else if s = "1" then some true
      else if s = "0" then some false
      else none
  | .vNull => none

/-! Decimal rounding.  JS numbers are embedded as exact rationals;
`x.toFixed(d)` rounds to the nearest multiple of `10^-d`, ties away from
zero for the nonnegative values these handlers feed it, i.e. the scaled
integer is `⌊x*10^d + 1/2⌋`. -/

/-- The scaled integer underlying `x.toFixed(digits)`. -/
def jsToFixedInt (x : ℚ) (digits : ℕ) : Int :=
  ⌊x * 10 ^ digits + 1 / 2⌋

/-- The numeric value of the string `x.toFixed(digits)`, i.e. what
`toNumber` recovers from it. -/
def toFixedQ (x : ℚ) (digits : ℕ) : ℚ :=
  (jsToFixedInt x digits : ℚ) / 10 ^ digits

/-- Renders a scaled integer as a fixed-point decimal string with
`digits` fractional digits, exactly as `Number.prototype.toFixed` lays it
out. -/
def fixedString (n : Int) (digits : ℕ) : String :=
  if digits = 0 then toString n
  else
    let na := n.natAbs
    let ip := na / 10 ^ digits
    let fp := na % 10 ^ digits
    let fs := toString fp
    let fpad := String.mk (List.replicate (digits - fs.length) (Char.ofNat 48)) ++ fs
    (if n < 0 then "-" else "") ++ toString ip ++ "." ++ fpad

/-- Embeds `decimalString(value, digits) = toNumber(value).toFixed(digits)`
from the limits and consumption routers (the `null` branch for
non-numeric input does not arise on `ℚ` inputs). -/
def decimalString (value : ℚ) (digits : ℕ) : String :=
  fixedString (jsToFixedInt value digits) digits

/-- Model of SQL autoincrement primary keys: the fresh id is strictly
greater than every existing id. -/
def freshId (ids : List Int) : Int :=
  ids.foldr max 0 + 1

/-! ## Tariff router (`tariffs.routes`) -/

structure TariffRow where
  id : Int
  user_id : Int
  tariff_name : String
  price_per_kwh : ℚ
  valid_from : String
  valid_to : Option String
  is_active : Bool
deriving DecidableEq, Repr

/-- Embeds `isAfter(dateA, dateB) = String(dateA) > String(dateB)` on raw
strings (tariff validity bounds are compared as strings).  JS compares
strings lexicographically by code unit; `List.lt` on the character lists
is that order (and is what `String.instLT` denotes). -/
def isAfterStr (a b : String) : Bool :=
  decide (b.data < a.data)

/-- JS `x ? String(x) : null` on an optional string: empty strings are
falsy and collapse to `null`. -/
def strOrNull (o : Option String) : Option String :=
  o.bind fun s => if s = "" then none else some s

/-- Whether an optional string field is JS-falsy (`!x`): absent or empty. -/
def strFalsy (o : Option String) : Bool :=
  match o with
  | none => true
  | some s => s == ""

/-- Embeds `isDateInRange(date, validFrom, validTo)` (string comparison
as in `isAfterStr`). -/
def isDateInRange (date : String) (validFrom validTo : Option String) : Bool :=
  let fromB := strOrNull validFrom
  let toB := strOrNull validTo
  (fromB.all fun f => !(decide (date.data < f.data))) &&
    (toB.all fun t => !(decide (t.data < date.data)))

/-- Embeds `assertCanBeActiveNow` with `todayISO()` passed explicitly;
`true` is the `{ ok: true }` branch. -/
def assertCanBeActiveNow (today : String) (validFrom validTo : Option String) : Bool :=
  isDateInRange today validFrom validTo

inductive TariffResp where
  | created (row : TariffRow)
  | updated (row : TariffRow)
  | okRow (row : TariffRow)
  | badRequest (message : String)
  | notFound
deriving DecidableEq, Repr

structure TariffCreateBody where
  tariff_name : Option String
  price_per_kwh : Option ℚ
  valid_from : Option String
  valid_to : Option String
  is_active : Option JSVal
deriving Repr

/-- Embeds the `Tariff.update({ is_active: false }, { where: { user_id,
id: { Op.ne: keepId } } })` call shared by the tariff transactions. -/
def deactivateOthers (tariffs : List TariffRow) (userId keepId : Int) : List TariffRow :=
  tariffs.map (fun t =>
    if t.user_id == userId && t.id != keepId then { t with is_active := false } else t)

/-- Embeds `row.update({...})`: the stored row with the given id is
replaced by the updated one. -/
def replaceById (tariffs : List TariffRow) (rid : Int) (r : TariffRow) : List TariffRow :=
  tariffs.map (fun t => if t.id == rid then r else t)

/-- The row `Tariff.create({...})` persists for `POST /api/tariffs`
(`makeActive = is_active !== false`). -/
def newTariffRow (tariffs : List TariffRow) (userId : Int) (body : TariffCreateBody) :
    TariffRow :=
  { id := freshId (tariffs.map (·.id)), user_id := userId,
    tariff_name := body.tariff_name.getD "",
    price_per_kwh := body.price_per_kwh.getD 0,
    valid_from := body.valid_from.getD "",
    valid_to := strOrNull body.valid_to,
    is_active := body.is_active != some (JSVal.vBool false) }

/-- Embeds `POST /api/tariffs`.  Returns the response and the
post-transaction tariff table. -/
def createTariff (today : String) (tariffs : List TariffRow) (userId : Int)
    (body : TariffCreateBody) : TariffResp × List TariffRow :=
  if strFalsy body.tariff_name || body.price_per_kwh.isNone || strFalsy body.valid_from then
    (.badRequest "tariff_name, price_per_kwh, valid_from are required", tariffs)
  else
    let vf := body.valid_from.getD ""
    if !(strFalsy body.valid_to) && isAfterStr vf (body.valid_to.getD "") then
      (.badRequest "valid_from cannot be after valid_to", tariffs)
    else
      let makeActive := body.is_active != some (JSVal.vBool false)
      if makeActive && !(assertCanBeActiveNow today (some vf) (strOrNull body.valid_to)) then
        (.badRequest "Tariff cannot be active now.", tariffs)
      else
        let newRow := newTariffRow tariffs userId body
        let post :=
          if makeActive then deactivateOthers tariffs userId newRow.id ++ [newRow]
          else tariffs ++ [newRow]
        (.created newRow, post)

structure TariffPatchBody where
  tariff_name : Option String
  price_per_kwh : Option ℚ
  valid_from : Option String
  valid_to : Option (Option String)
  is_active : Option JSVal
deriving Repr

/-- The row state `row.update({...})` persists for `PATCH /api/tariffs/:id`
(`?? `-fallbacks to the stored row, `valid_to || null`, `Boolean(is_active)`
when present). -/
def patchedTariffRow (row : TariffRow) (body : TariffPatchBody) : TariffRow :=
  { row with
    tariff_name := body.tariff_name.getD row.tariff_name,
    price_per_kwh := body.price_per_kwh.getD row.price_per_kwh,
    valid_from := body.valid_from.getD row.valid_from,
    valid_to :=
      match body.valid_to with
      | none => row.valid_to
      | some v => strOrNull v,
    is_active :=
      match body.is_active with
      | none => row.is_active
      | some v => jsTruthy v }

/-- Embeds `PATCH /api/tariffs/:id`.  `body.valid_to` distinguishes the
three JS states undefined / null / string. -/
def patchTariff (today : String) (tariffs : List TariffRow) (userId id : Int)
    (body : TariffPatchBody) : TariffResp × List TariffRow :=
  match tariffs.find? (fun t => t.id == id && t.user_id == userId) with
  | none => (.notFound, tariffs)
  | some row =>
    let nextValidFrom := body.valid_from.getD row.valid_from
    let nextValidTo : Option String :=
      match body.valid_to with
      | none => row.valid_to
      | some v => strOrNull v
    if nextValidTo.any (fun t => isAfterStr nextValidFrom t) then
      (.badRequest "valid_from cannot be after valid_to", tariffs)
    else
      let nextIsActive :=
        match body.is_active with
        | none => row.is_active
        | some v => jsTruthy v
      if nextIsActive && !(assertCanBeActiveNow today (some nextValidFrom) nextValidTo) then
        (.badRequest "Tariff cannot be active now.", tariffs)
      else
        let updatedRow := patchedTariffRow row body
        let base :=
          if body.is_active == some (JSVal.vBool true) then deactivateOthers tariffs userId row.id
          else tariffs
        (.updated updatedRow, replaceById base row.id updatedRow)

/-- Embeds `POST /api/tariffs/:id/activate`. -/
def activateTariff (today : String) (tariffs : List TariffRow) (userId id : Int) :
    TariffResp × List TariffRow :=
  match tariffs.find? (fun t => t.id == id && t.user_id == userId) with
  | none => (.notFound, tariffs)
  | some row =>
    if row.is_active then (.okRow row, tariffs)
    else if !(assertCanBeActiveNow today (some row.valid_from) row.valid_to) then
      (.badRequest "Tariff cannot be active now.", tariffs)
    else
      let updatedRow : TariffRow := { row with is_active := true }
      (.okRow updatedRow,
        replaceById (deactivateOthers tariffs userId row.id) row.id updatedRow)

/-- "At most one tariff with `is_active = true` per user": any two active
rows of one user are the same row. -/
def atMostOneActivePerUser (tariffs : List TariffRow) : Prop :=
  ∀ a ∈ tariffs, ∀ b ∈ tariffs,
    a.user_id = b.user_id → a.is_active = true → b.is_active = true → a.id = b.id

/-- Store well-formedness: primary keys are unique and the single-active
invariant holds. -/
def tariffInvariant (tariffs : List TariffRow) : Prop :=
  (tariffs.map (·.id)).Nodup ∧ atMostOneActivePerUser tariffs

/-! ## Limits router (`limits.routes`) -/

structure LimitRow where
  id : Int
  user_id : Int
  limit_kwh : ℚ
  period_type : String
  period_start : CivilDate
  period_end : CivilDate
  alert_enabled : Bool
  alert_threshold_percent : Int
deriving DecidableEq, Repr

def PERIOD_TYPES : List String := ["week", "month", "year", "custom"]

/-- Components of the `YYYY-MM-DD` string a stored `DATEONLY` value is
serialized to (Sequelize returns stored dates zero-padded). -/
def ymdOfCivil (c : CivilDate) : Ymd :=
  ⟨c.year, c.month + 1, c.day⟩

/-- Result of `resolvePeriodEndOrFail`: the resolved end date, or the
400 response it writes (message and optional `expected_period_end`). -/
inductive ResolveEnd where
  | ok (endDate : CivilDate)
  | fail (message : String) (expected : Option String)
deriving DecidableEq, Repr

/-- Embeds `resolvePeriodEndOrFail({ type, start, endFromBody, endFromDb })`.
`endFromBody` is the request field (absent = `undefined`), given by its
regex components; its raw request string is `isoRaw`.  `endFromDb` is the
stored `period_end` used by PATCH. -/
def resolvePeriodEndOrFail (type : String) (start : Ymd) (endFromBody : Option Ymd)
    (endFromDb : Option CivilDate) : ResolveEnd :=
  if type = "custom" then
    let endY : Option Ymd :=
      match endFromBody with
      | some e => some e
      | none => endFromDb.map ymdOfCivil
    match endY with
    | none => .fail "period_end is required for custom and must be YYYY-MM-DD" none
    | some e =>
      if !(isValidISODate e) then
        .fail "period_end is required for custom and must be YYYY-MM-DD" none
      else if ymdIsAfter start e then
        .fail "period_start cannot be after period_end" none
      else .ok (parseDateUTC e)
  else
    match calcAutoPeriodEndDate type (parseDateUTC start) with
    | none => .fail "period_type must be one of: week, month, year, custom" none
    | some autoEndDate =>
      let autoEnd := formatDateUTC autoEndDate
      match endFromBody with
      | none => .ok autoEndDate
      | some e =>
        if !(isValidISODate e) then
          .fail "period_end must be YYYY-MM-DD" none
        else if isoRaw e ≠ autoEnd then
          .fail ("period_end is auto-calculated for period_type=" ++ type ++ ". Expected " ++
            autoEnd) (some autoEnd)
        else .ok autoEndDate

/-- Embeds `findOverlappingLimit` (`period_start <= end AND period_end >=
start`, same user and period type, optionally excluding one id). -/
def findOverlappingLimit (limits : List LimitRow) (userId : Int) (periodType : String)
    (start e : CivilDate) (excludeId : Option Int) : Option LimitRow :=
  limits.find? (fun l =>
    l.user_id == userId && l.period_type == periodType &&
      dateLE l.period_start e && dateLE start l.period_end &&
      (match excludeId with
       | none => true
       | some i => l.id != i))

structure LimitBody where
  limit_kwh : Option ℚ
  period_type : Option String
  period_start : Option Ymd
  period_end : Option Ymd
  alert_enabled : Option JSVal
  alert_threshold_percent : Option ℚ
deriving Repr

inductive LimitResp where
  | created (row : LimitRow)
  | updated (row : LimitRow)
  | conflict (existing_limit_id : Int)
  | badRequest (message : String) (expected_period_end : Option String)
  | notFound
deriving DecidableEq, Repr

/-- Embeds `POST /api/limits`. -/
def createLimit (limits : List LimitRow) (userId : Int) (body : LimitBody) :
    LimitResp × List LimitRow :=
  let type := body.period_type.getD ""
  if !(PERIOD_TYPES.contains type) then
    (.badRequest "period_type must be one of: week, month, year, custom" none, limits)
  else
    match body.period_start with
    | none => (.badRequest "period_start must be YYYY-MM-DD" none, limits)
    | some start =>
      if !(isValidISODate start) then
        (.badRequest "period_start must be YYYY-MM-DD" none, limits)
      else
        match resolvePeriodEndOrFail type start body.period_end none with
        | .fail msg expected => (.badRequest msg expected, limits)
        | .ok endDate =>
          match body.limit_kwh with
          | none => (.badRequest "limit_kwh must be a positive number" none, limits)
          | some lk =>
            let lkRounded := toFixedQ lk 3
            if lkRounded ≤ 0 then
              (.badRequest "limit_kwh must be a positive number" none, limits)
            else
              match (match body.alert_enabled with
                     | none => some true
                     | some v => parseBool v) with
              | none => (.badRequest "alert_enabled must be boolean" none, limits)
              | some alertEnabled =>
                let thRaw : ℚ := body.alert_threshold_percent.getD 80
                if !(thRaw.den == 1 && 1 ≤ thRaw && thRaw ≤ 100) then
                  (.badRequest "alert_threshold_percent must be integer 1..100" none, limits)
                else
                  match findOverlappingLimit limits userId type (parseDateUTC start) endDate none with
                  | some l => (.conflict l.id, limits)
                  | none =>
                    let newRow : LimitRow :=
                      { id := freshId (limits.map (·.id)), user_id := userId,
                        limit_kwh := lkRounded, period_type := type,
                        period_start := parseDateUTC start, period_end := endDate,
                        alert_enabled := alertEnabled, alert_threshold_percent := thRaw.num }
                    (.created newRow, limits ++ [newRow])

/-- Embeds `PATCH /api/limits/:id`. -/
def updateLimit (limits : List LimitRow) (userId id : Int) (body : LimitBody) :
    LimitResp × List LimitRow :=
  match limits.find? (fun l => l.id == id && l.user_id == userId) with
  | none => (.notFound, limits)
  | some row =>
    let nextType :=
      match body.period_type with
      | none => row.period_type
      | some s => s
    if !(PERIOD_TYPES.contains nextType) then
      (.badRequest "period_type must be one of: week, month, year, custom" none, limits)
    else
      let nextStart : Ymd :=
        match body.period_start with
        | none => ymdOfCivil row.period_start
        | some s => s
      if !(isValidISODate nextStart) then
        (.badRequest "period_start must be YYYY-MM-DD" none, limits)
      else
        match resolvePeriodEndOrFail nextType nextStart body.period_end (some row.period_end) with
        | .fail msg expected => (.badRequest msg expected, limits)
        | .ok endDate =>
          let nextLimitKwh : ℚ :=
            match body.limit_kwh with
            | none => row.limit_kwh
            | some q => toFixedQ q 3
          if nextLimitKwh ≤ 0 then
            (.badRequest "limit_kwh must be a positive number" none, limits)
          else
            match (match body.alert_enabled with
                   | none => some row.alert_enabled
                   | some v => parseBool v) with
            | none => (.badRequest "alert_enabled must be boolean" none, limits)
            | some nextAlertEnabled =>
              let nextThreshold : ℚ :=
                match body.alert_threshold_percent with
                | none => (row.alert_threshold_percent : ℚ)
                | some q => q
              if !(nextThreshold.den == 1 && 1 ≤ nextThreshold && nextThreshold ≤ 100) then
                (.badRequest "alert_threshold_percent must be integer 1..100" none, limits)
              else
                match findOverlappingLimit limits userId nextType (parseDateUTC nextStart)
                    endDate (some id) with
                | some l => (.conflict l.id, limits)
                | none =>
                  let updatedRow : LimitRow :=
                    { row with
                      limit_kwh := nextLimitKwh, period_type := nextType,
                      period_start := parseDateUTC nextStart, period_end := endDate,
                      alert_enabled := nextAlertEnabled,
                      alert_threshold_percent := nextThreshold.num }
                  (.updated updatedRow,
                    limits.map (fun l => if l.id == row.id then updatedRow else l))

/-- "No two limits of one (user, period_type) pair overlap" (inclusive
range intersection): any two rows of one user and type whose ranges
intersect are the same row. -/
def limitsDisjoint (limits : List LimitRow) : Prop :=
  ∀ a ∈ limits, ∀ b ∈ limits,
    a.user_id = b.user_id → a.period_type = b.period_type →
      dateLE a.period_start b.period_end = true →
      dateLE b.period_start a.period_end = true → a.id = b.id

def limitsInvariant (limits : List LimitRow) : Prop :=
  (limits.map (·.id)).Nodup ∧ limitsDisjoint limits

/-! ## Consumption router (`consumption.routes`) -/

structure ApplianceRow where
  id : Int
  user_id : Int
  name : String
  estimated_power : Option ℚ
deriving DecidableEq, Repr

structure ConsumptionRow where
  id : Int
  user_id : Int
  appliance_id : Option Int
  consumption_kwh : ℚ
  applied_price_per_kwh : ℚ
  cost : ℚ
  record_date : CivilDate
  notes : Option String
deriving DecidableEq, Repr

/-- Insertion into a list sorted by descending id (model of the
`ORDER BY id DESC` clause of `getActiveTariffStrict`). -/
def insertDescById (t : TariffRow) : List TariffRow → List TariffRow
  | [] => [t]
  | x :: xs => if x.id ≤ t.id then t :: x :: xs else x :: insertDescById t xs

def sortDescById (l : List TariffRow) : List TariffRow :=
  l.foldr insertDescById []

inductive TariffCheck where
  | noActive
  | manyActive (ids : List Int)
  | one (tariff : TariffRow)
deriving DecidableEq, Repr

/-- Embeds `getActiveTariffStrict(userId)`: the user's active tariffs,
ordered by id descending, limited to 2 rows. -/
def getActiveTariffStrict (tariffs : List TariffRow) (userId : Int) : TariffCheck :=
  let rows := (sortDescById (tariffs.filter (fun t => t.user_id == userId && t.is_active))).take 2
  match rows with
  | [] => .noActive
  | [t] => .one t
  | _ => .manyActive (rows.map (·.id))

/-- Embeds `computeKwh({ consumption_kwh, usage_hours, appliance })`. -/
def computeKwh (consumption_kwh usage_hours : Option ℚ) (appliance : Option ApplianceRow) :
    Except String ℚ :=
  match consumption_kwh with
  | some kwh =>
    if kwh ≤ 0 then .error "consumption_kwh must be a positive number" else .ok kwh
  | none =>
    match usage_hours with
    | some hours =>
      if hours ≤ 0 then .error "usage_hours must be a positive number"
      else
        match appliance with
        | none => .error "usage_hours requires appliance_id"
        | some ap =>
          match ap.estimated_power with
          | some power =>
            if power ≤ 0 then
              .error "appliance.estimated_power must be set (>0) to calculate kWh from usage_hours"
            else .ok (power * hours)
          | none =>
            .error "appliance.estimated_power must be set (>0) to calculate kWh from usage_hours"
    | none => .error "Provide consumption_kwh OR usage_hours (with appliance_id)"

inductive ConsumptionResp where
  | created (row : ConsumptionRow)
  | updated (row : ConsumptionRow)
  | badRequest (message : String)
  | conflict (active_tariff_ids : List Int)
  | notFound (message : String)
deriving DecidableEq, Repr

/-- The appliance lookup of `POST /api/consumption` (`appliance_id`
absent or null means no appliance; otherwise it must name an appliance of
the caller or the request 404s). -/
def lookupAppliance (appliances : List ApplianceRow) (userId : Int)
    (appliance_id : Option Int) : Except ConsumptionResp (Option ApplianceRow) :=
  match appliance_id with
  | none => .ok none
  | some aid =>
    match appliances.find? (fun a => a.id == aid && a.user_id == userId) with
    | none => .error (.notFound "appliance not found")
    | some ap => .ok (some ap)

/-- Embeds `resolveApplianceForUser(userId, appliance_id)`: the flag is
the `keep` field (undefined `appliance_id` keeps the stored link). -/
def resolveApplianceForUser (appliances : List ApplianceRow) (userId : Int)
    (appliance_id : Option (Option Int)) : Except ConsumptionResp (Bool × Option ApplianceRow) :=
  match appliance_id with
  | none => .ok (true, none)
  | some none => .ok (false, none)
  | some (some aid) =>
    match appliances.find? (fun a => a.id == aid && a.user_id == userId) with
    | none => .error (.notFound "appliance not found")
    | some ap => .ok (false, some ap)

structure ConsumptionCreateBody where
  appliance_id : Option Int
  consumption_kwh : Option ℚ
  usage_hours : Option ℚ
  record_date : Option Ymd
  notes : Option String
deriving Repr

/-- Embeds `POST /api/consumption`. -/
def createConsumptionRecord (tariffs : List TariffRow) (appliances : List ApplianceRow)
    (records : List ConsumptionRow) (userId : Int) (body : ConsumptionCreateBody) :
    ConsumptionResp × List ConsumptionRow :=
  if body.consumption_kwh.isSome && body.usage_hours.isSome then
    (.badRequest "Provide either consumption_kwh or usage_hours, not both", records)
  else
    match body.record_date with
    | none => (.badRequest "record_date is required (YYYY-MM-DD)", records)
    | some dY =>
      if !(isValidISODate dY) then
        (.badRequest "record_date is required (YYYY-MM-DD)", records)
      else
        match getActiveTariffStrict tariffs userId with
        | .noActive =>
          (.badRequest "No active tariff. Please create a tariff and set it as active.", records)
        | .manyActive ids => (.conflict ids, records)
        | .one activeTariff =>
          match lookupAppliance appliances userId body.appliance_id with
          | .error resp => (resp, records)
          | .ok appliance =>
            match computeKwh body.consumption_kwh body.usage_hours appliance with
            | .error msg => (.badRequest msg, records)
            | .ok kwh =>
              let price := activeTariff.price_per_kwh
              if price < 0 then
                (.badRequest "Active tariff price_per_kwh is invalid", records)
              else
                let kwhR := toFixedQ kwh 3
                let priceR := toFixedQ price 4
                let costR := toFixedQ (kwhR * priceR) 4
                let newRow : ConsumptionRow :=
                  { id := freshId (records.map (·.id)), user_id := userId,
                    appliance_id := appliance.map (·.id),
                    consumption_kwh := kwhR, applied_price_per_kwh := priceR, cost := costR,
                    record_date := parseDateUTC dY,
                    notes := (body.notes.bind fun s => if s = "" then none else some s) }
                (.created newRow, records ++ [newRow])

structure ConsumptionPatchBody where
  appliance_id : Option (Option Int)
  consumption_kwh : Option ℚ
  usage_hours : Option ℚ
  record_date : Option Ymd
  notes : Option (Option String)
deriving Repr

/-- Embeds `PATCH /api/consumption/:id`.  `body.appliance_id` and
`body.notes` distinguish the JS states undefined / null / value. -/
def patchConsumptionRecord (tariffs : List TariffRow) (appliances : List ApplianceRow)
    (records : List ConsumptionRow) (userId id : Int) (body : ConsumptionPatchBody) :
    ConsumptionResp × List ConsumptionRow :=
  match records.find? (fun r => r.id == id && r.user_id == userId) with
  | none => (.notFound "not found", records)
  | some row =>
    if body.consumption_kwh.isSome && body.usage_hours.isSome then
      (.badRequest "Provide either consumption_kwh or usage_hours, not both", records)
    else
      let nextDate : Ymd :=
        match body.record_date with
        | none => ymdOfCivil row.record_date
        | some d => d
      if !(isValidISODate nextDate) then
        (.badRequest "record_date must be YYYY-MM-DD", records)
      else
        match getActiveTariffStrict tariffs userId with
        | .noActive =>
          (.badRequest "No active tariff. Please create a tariff and set it as active.", records)
        | .manyActive ids => (.conflict ids, records)
        | .one activeTariff =>
          match resolveApplianceForUser appliances userId body.appliance_id with
          | .error resp => (resp, records)
          | .ok (keep, apFound) =>
            let nextApplianceId : Option Int :=
              if keep then row.appliance_id else apFound.map (·.id)
            let appliance : Option ApplianceRow :=
              if keep then
                match row.appliance_id with
                | some aid => appliances.find? (fun a => a.id == aid && a.user_id == userId)
                | none => none
              else apFound
            let kwhStep : Except String ℚ :=
              match body.consumption_kwh with
              | some k =>
                if k ≤ 0 then .error "consumption_kwh must be a positive number" else .ok k
              | none =>
                match body.usage_hours with
                | some _ => computeKwh none body.usage_hours appliance
                | none => .ok row.consumption_kwh
            match kwhStep with
            | .error msg => (.badRequest msg, records)
            | .ok nextKwh =>
              if nextKwh ≤ 0 then
                (.badRequest "consumption_kwh must be a positive number", records)
              else
                let price := activeTariff.price_per_kwh
                if price < 0 then
                  (.badRequest "Active tariff price_per_kwh is invalid", records)
                else
                  let kwhR := toFixedQ nextKwh 3
                  let priceR := toFixedQ price 4
                  let costR := toFixedQ (kwhR * priceR) 4
                  let updatedRow : ConsumptionRow :=
                    { row with
                      appliance_id := nextApplianceId,
                      consumption_kwh := kwhR, applied_price_per_kwh := priceR, cost := costR,
                      record_date := parseDateUTC nextDate,
                      notes :=
                        match body.notes with
                        | none => row.notes
                        | some v => v.bind fun s => if s = "" then none else some s }
                  (.updated updatedRow,
                    records.map (fun r => if r.id == row.id then updatedRow else r))

/-! ## Limit progress (`GET /api/limits/:id/progress`) and the reports
normalization (`normalizeLimitRow` in `reports.routes`). -/

structure ProgressResp where
  limit_id : Int
  period_type : String
  period_start : CivilDate
  period_end : CivilDate
  limit_kwh : ℚ
  used_kwh : ℚ
  percent_used : Option ℚ
  alert_enabled : Bool
  alert_threshold_percent : ℚ
  threshold_reached : Bool
  limit_exceeded : Bool
deriving DecidableEq, Repr

/-- Embeds `GET /api/limits/:id/progress` (`none` is the 404 branch).
`percent_used` is `Number(percent.toFixed(2))`, or null when
`limit_kwh ≤ 0`. -/
def limitProgress (limits : List LimitRow) (records : List ConsumptionRow) (userId id : Int) :
    Option ProgressResp :=
  match limits.find? (fun l => l.id == id && l.user_id == userId) with
  | none => none
  | some limit =>
    let used : ℚ :=
      ((records.filter (fun r =>
          r.user_id == userId && dateLE limit.period_start r.record_date &&
            dateLE r.record_date limit.period_end)).map (·.consumption_kwh)).sum
    let limitKwh := limit.limit_kwh
    let percent : Option ℚ := if 0 < limitKwh then some (used / limitKwh * 100) else none
    let threshold : ℚ :=
      if (limit.alert_threshold_percent : ℚ) == 0 then 80 else (limit.alert_threshold_percent : ℚ)
    let alertEnabled := limit.alert_enabled
    let thresholdReached :=
      alertEnabled && (match percent with
                       | some p => decide (threshold ≤ p)
                       | none => false)
    let exceeded :=
      match percent with
      | some p => decide ((100 : ℚ) ≤ p)
      | none => false
    some { limit_id := limit.id, period_type := limit.period_type,
           period_start := limit.period_start, period_end := limit.period_end,
           limit_kwh := limitKwh, used_kwh := used,
           percent_used := percent.map (fun p => toFixedQ p 2),
           alert_enabled := alertEnabled, alert_threshold_percent := threshold,
           threshold_reached := thresholdReached, limit_exceeded := exceeded }

/-- Input row of `normalizeLimitRow` (the raw SQL join row of the limits
report: limit columns plus the summed `used_kwh`). -/
structure RawLimitRow where
  id : Int
  period_type : String
  period_start : CivilDate
  period_end : CivilDate
  limit_kwh : ℚ
  alert_enabled : Bool
  alert_threshold_percent : ℚ
  used_kwh : ℚ
deriving DecidableEq, Repr

structure NormalizedLimit where
  id : Int
  period_type : String
  period_start : CivilDate
  period_end : CivilDate
  limit_kwh : ℚ
  used_kwh : ℚ
  remaining_kwh : ℚ
  percent_used : ℚ
  alert_enabled : Bool
  alert_threshold_percent : ℚ
  threshold_reached : Bool
  limit_exceeded : Bool
  status : String
deriving DecidableEq, Repr

/-- Embeds `normalizeLimitRow` from the reports router. -/
def normalizeLimitRow (r : RawLimitRow) : NormalizedLimit :=
  let limitKwh := r.limit_kwh
  let usedKwh := r.used_kwh
  let alertEnabled := r.alert_enabled
  let threshold : ℚ := if r.alert_threshold_percent == 0 then 80 else r.alert_threshold_percent
  let percent : ℚ := if 0 < limitKwh then usedKwh / limitKwh * 100 else 0
  let limitExceeded := decide ((100 : ℚ) ≤ percent)
  let thresholdReached := !limitExceeded && alertEnabled && decide (threshold ≤ percent)
  let status :=
    if limitExceeded then "limit_exceeded"
    else if thresholdReached then "threshold_reached"
    else "ok"
  { id := r.id, period_type := r.period_type,
    period_start := r.period_start, period_end := r.period_end,
    limit_kwh := toFixedQ limitKwh 3, used_kwh := toFixedQ usedKwh 3,
    remaining_kwh := toFixedQ (max 0 (limitKwh - usedKwh)) 3,
    percent_used := toFixedQ percent 2,
    alert_enabled := alertEnabled, alert_threshold_percent := threshold,
    threshold_reached := thresholdReached, limit_exceeded := limitExceeded, status := status }

/-! ## Admin router (`admin.routes`) -/

structure UserRow where
  id : Int
  email : String
  role : String
  is_blocked : Bool
deriving DecidableEq, Repr

inductive AdminResp where
  | okUser (user : UserRow)
  | badRequest (message : String)
  | conflict (message : String)
  | notFound
deriving DecidableEq, Repr

def ROLES : List String := ["user", "admin"]

/-- Embeds `countActiveAdmins()` (`role = 'admin' AND is_blocked = false`). -/
def countActiveAdmins (users : List UserRow) : Nat :=
  (users.filter (fun u => u.role == "admin" && !u.is_blocked)).length

/-- Embeds `PATCH /api/admin/users/:id/role` (the audit write carries no
state read back by any handler and is not modelled). -/
def changeUserRole (users : List UserRow) (callerId targetId : Int) (roleBody : Option String) :
    AdminResp × List UserRow :=
  if !(decide (0 < targetId)) then (.badRequest "invalid id", users)
  else
    let nextRole := roleBody.getD ""
    if !(ROLES.contains nextRole) then (.badRequest "role must be user or admin", users)
    else if targetId == callerId && nextRole != "admin" then
      (.badRequest "cannot change own role", users)
    else
      match users.find? (fun u => u.id == targetId) with
      | none => (.notFound, users)
      | some user =>
        if user.role == "admin" && nextRole != "admin" && countActiveAdmins users ≤ 1 then
          (.conflict "cannot remove role from the last active admin", users)
        else
          let updated := { user with role := nextRole }
          (.okUser updated, users.map (fun u => if u.id == user.id then updated else u))

/-- Embeds `PATCH /api/admin/users/:id/block`. -/
def setUserBlocked (users : List UserRow) (callerId targetId : Int)
    (isBlockedBody : Option JSVal) : AdminResp × List UserRow :=
  if !(decide (0 < targetId)) then (.badRequest "invalid id", users)
  else
    match (match isBlockedBody with
           | none => none
           | some v => parseBool v) with
    | none => (.badRequest "is_blocked must be boolean", users)
    | some parsed =>
      if parsed && targetId == callerId then (.badRequest "cannot block own account", users)
      else
        match users.find? (fun u => u.id == targetId) with
        | none => (.notFound, users)
        | some user =>
          if parsed && user.role == "admin" && countActiveAdmins users ≤ 1 then
            (.conflict "cannot block the last active admin", users)
          else
            let updated := { user with is_blocked := parsed }
            (.okUser updated, users.map (fun u => if u.id == user.id then updated else u))

/-- Status classification as the specification words it: `limit_exceeded`
if percent_used ≥ 100; else `threshold_reached` if alerts are enabled and
percent_used ≥ alert_threshold_percent; else `ok`. -/
def limitStatusSpec (percent : ℚ) (alertEnabled : Bool) (threshold : ℚ) : String :=
  if 100 ≤ percent then "limit_exceeded"
  else if alertEnabled = true ∧ threshold ≤ percent then "threshold_reached"
  else "ok"

/-! ## Concrete fixtures used by witnesses and counterexamples -/

def fixtureTariffActive : TariffRow :=
  { id := 1, user_id := 1, tariff_name := "Day tariff", price_per_kwh := 4.32,
    valid_from := "2025-01-01", valid_to := none, is_active := true }

def fixtureTariffInactive : TariffRow :=
  { id := 2, user_id := 1, tariff_name := "Night tariff", price_per_kwh := 5,
    valid_from := "2025-01-01", valid_to := none, is_active := false }

def fixtureLimitDecember : LimitRow :=
  { id := 1, user_id := 1, limit_kwh := 100, period_type := "month",
    period_start := ⟨2025, 11, 1⟩, period_end := ⟨2025, 11, 31⟩,
    alert_enabled := true, alert_threshold_percent := 80 }

def fixtureRecordDecember : ConsumptionRow :=
  { id := 1, user_id := 1, appliance_id := none, consumption_kwh := 100,
    applied_price_per_kwh := 4.32, cost := 432, record_date := ⟨2025, 11, 15⟩, notes := none }

def fixtureAdmin : UserRow :=
  { id := 1, email := "admin@example.com", role := "admin", is_blocked := false }

def fixtureC5Body : ConsumptionCreateBody :=
  { appliance_id := none, consumption_kwh := some 3.5, usage_hours := none,
    record_date := some ⟨2025, 12, 14⟩, notes := none }

def fixturePatchActiveNum : TariffPatchBody :=
  { tariff_name := none, price_per_kwh := none, valid_from := none, valid_to := none,
    is_active := some (JSVal.vNum 1) }

/-! ## Proof infrastructure: calendar arithmetic -/

theorem addDaysUTC_neg_one (c : CivilDate) : addDaysUTC c (-1) = prevDay c := by
  simp [addDaysUTC, addDaysBwd]

theorem daysInMonth_ge (y m : Int) : 28 ≤ daysInMonth y m := by
  unfold daysInMonth
  split_ifs <;> norm_num

theorem addMonthsUTC_one (y mi d : Int) (h0 : 0 ≤ mi) (h1 : mi ≤ 11) :
    addMonthsUTC ⟨y, mi, d⟩ 1 =
      if mi = 11 then ⟨y + 1, 0, min d 31⟩
      else ⟨y, mi + 1, min d (daysInMonth y (mi + 1))⟩ := by
  have e1 : Int.fdiv (mi + 1) 12 = if mi = 11 then 1 else 0 := by
    interval_cases mi <;> decide
  have e2 : Int.tmod (Int.tmod (mi + 1) 12 + 12) 12 = if mi = 11 then 0 else mi + 1 := by
    interval_cases mi <;> decide
  simp only [addMonthsUTC, e1, e2]
  by_cases h : mi = 11
  · subst h; simp [daysInMonth]
  · simp [h]

/-- The month branch of `calcAutoPeriodEnd` computes exactly the
clamped-add-one-month-minus-one-day date of the specification. -/
theorem monthEnd_eq (s : Ymd) (h : isValidISODate s = true) :
    calcAutoPeriodEndDate "month" (parseDateUTC s) = some (monthEndSpec s) := by
  obtain ⟨y, m, d⟩ := s
  simp only [isValidISODate, Bool.and_eq_true, decide_eq_true_eq] at h
  obtain ⟨⟨⟨⟨⟨hy1, hy2⟩, hm1⟩, hm2⟩, hd1⟩, hd2⟩ := h
  have hstep : calcAutoPeriodEndDate "month" (parseDateUTC ⟨y, m, d⟩) =
      some (prevDay (addMonthsUTC ⟨y, m - 1, d⟩ 1)) := by
    simp [calcAutoPeriodEndDate, parseDateUTC, addDaysUTC_neg_one]
  rw [hstep, addMonthsUTC_one y (m - 1) d (by omega) (by omega)]
  by_cases hm12 : m = 12
  · subst hm12
    simp only [show (12 : Int) - 1 = 11 from by norm_num, if_pos rfl]
    simp only [daysInMonth] at hd2
    norm_num at hd2
    have hmin : min d 31 = d := by omega
    rw [hmin]
    by_cases hd : 1 < d
    · simp only [prevDay, if_pos hd, monthEndSpec, daysInMonth]
      norm_num
      try rw [hmin]
    · have hd1x : d = 1 := by omega
      subst hd1x
      simp [prevDay, monthEndSpec, daysInMonth]
  · have hne : m - 1 ≠ 11 := by omega
    simp only [if_neg hne, show m - 1 + 1 = m from by omega]
    have hdm := daysInMonth_ge y m
    simp only [monthEndSpec, if_neg hm12]
    by_cases hd : 1 < min d (daysInMonth y m)
    · simp only [prevDay, if_pos hd]
    · have hdc : min d (daysInMonth y m) = 1 := by omega
      simp only [prevDay, hdc]

/-! ## Proof infrastructure: fresh ids and lookups -/

theorem foldr_max_mem_le (l : List Int) (x : Int) (hx : x ∈ l) : x ≤ l.foldr max 0 := by
  induction l with
  | nil => simp at hx
  | cons a as ih =>
    rcases List.mem_cons.mp hx with h | h
    · subst h; exact le_max_left _ _
    · exact le_trans (ih h) (le_max_right _ _)

theorem freshId_gt (l : List Int) (x : Int) (hx : x ∈ l) : x < freshId l := by
  have := foldr_max_mem_le l x hx
  unfold freshId
  omega

theorem find_limit_props (limits : List LimitRow) (u id : Int) (row : LimitRow)
    (h : limits.find? (fun l => l.id == id && l.user_id == u) = some row) :
    row ∈ limits ∧ row.id = id ∧ row.user_id = u := by
  have hmem := List.mem_of_find?_eq_some h
  have hpred := List.find?_some h
  simp only [Bool.and_eq_true, beq_iff_eq] at hpred
  exact ⟨hmem, hpred.1, hpred.2⟩

theorem find_tariff_props (tariffs : List TariffRow) (u id : Int) (row : TariffRow)
    (h : tariffs.find? (fun t => t.id == id && t.user_id == u) = some row) :
    row ∈ tariffs ∧ row.id = id ∧ row.user_id = u := by
  have hmem := List.mem_of_find?_eq_some h
  have hpred := List.find?_some h
  simp only [Bool.and_eq_true, beq_iff_eq] at hpred
  exact ⟨hmem, hpred.1, hpred.2⟩

/-! ## Proof infrastructure: limits store -/

theorem find_none_overlap (limits : List LimitRow) (u : Int) (ty : String)
    (s e : CivilDate)
    (h : findOverlappingLimit limits u ty s e none = none) :
    ∀ l ∈ limits, l.user_id = u → l.period_type = ty →
      ¬(dateLE l.period_start e = true ∧ dateLE s l.period_end = true) := by
  intro l hl hu hty hov
  have hfal := List.find?_eq_none.mp h l hl
  simp [hu, hty, hov.1, hov.2] at hfal

theorem find_none_overlap_excl (limits : List LimitRow) (u excl : Int) (ty : String)
    (s e : CivilDate)
    (h : findOverlappingLimit limits u ty s e (some excl) = none) :
    ∀ l ∈ limits, l.id ≠ excl → l.user_id = u → l.period_type = ty →
      ¬(dateLE l.period_start e = true ∧ dateLE s l.period_end = true) := by
  intro l hl hne hu hty hov
  have hfal := List.find?_eq_none.mp h l hl
  simp [hu, hty, hov.1, hov.2, hne] at hfal

theorem limitsInvariant_append (limits : List LimitRow) (r : LimitRow)
    (hinv : limitsInvariant limits)
    (hid : ∀ l ∈ limits, l.id ≠ r.id)
    (hno : ∀ l ∈ limits, l.user_id = r.user_id → l.period_type = r.period_type →
      ¬(dateLE l.period_start r.period_end = true ∧ dateLE r.period_start l.period_end = true)) :
    limitsInvariant (limits ++ [r]) := by
  constructor
  · rw [List.map_append, List.nodup_append]
    refine ⟨hinv.1, List.nodup_singleton _, ?_⟩
    intro x hx
    simp only [List.map_cons, List.map_nil, List.mem_singleton]
    rcases List.mem_map.mp hx with ⟨l, hl, hlx⟩
    intro hxr
    exact hid l hl (by rw [hlx, hxr])
  · intro a ha b hb hu hty hab hba
    rcases List.mem_append.mp ha with ha | ha <;> rcases List.mem_append.mp hb with hb | hb
    · exact hinv.2 a ha b hb hu hty hab hba
    · rw [List.mem_singleton.mp hb] at hu hty hab hba ⊢
      exact absurd ⟨hab, hba⟩ (hno a ha hu hty)
    · rw [List.mem_singleton.mp ha] at hu hty hab hba ⊢
      exact absurd ⟨hba, hab⟩ (hno b hb hu.symm hty.symm)
    · rw [List.mem_singleton.mp ha, List.mem_singleton.mp hb]

theorem limitsInvariant_replace (limits : List LimitRow) (rid : Int) (r : LimitRow)
    (hinv : limitsInvariant limits)
    (hr : r.id = rid)
    (hno : ∀ l ∈ limits, l.id ≠ rid → l.user_id = r.user_id → l.period_type = r.period_type →
      ¬(dateLE l.period_start r.period_end = true ∧ dateLE r.period_start l.period_end = true)) :
    limitsInvariant (limits.map (fun l => if l.id == rid then r else l)) := by
  have hids : (limits.map (fun l => if l.id == rid then r else l)).map (·.id) =
      limits.map (·.id) := by
    rw [List.map_map]
    apply List.map_congr_left
    intro l _
    by_cases h : l.id = rid
    · simp [h, hr]
    · simp [h]
  constructor
  · rw [hids]; exact hinv.1
  · intro a ha b hb hu hty hab hba
    rcases List.mem_map.mp ha with ⟨la, hla, haeq⟩
    rcases List.mem_map.mp hb with ⟨lb, hlb, hbeq⟩
    by_cases h1 : la.id = rid <;> by_cases h2 : lb.id = rid
    · simp [h1] at haeq; simp [h2] at hbeq; rw [← haeq, ← hbeq]
    · simp [h1] at haeq; simp [h2] at hbeq
      rw [← haeq] at hu hty hab hba; rw [← hbeq] at hu hty hab hba ⊢
      exact absurd ⟨hba, hab⟩ (hno lb hlb h2 hu.symm hty.symm)
    · simp [h1] at haeq; simp [h2] at hbeq
      rw [← haeq] at hu hty hab hba ⊢; rw [← hbeq] at hu hty hab hba
      exact absurd ⟨hab, hba⟩ (hno la hla h1 hu hty)
    · simp [h1] at haeq; simp [h2] at hbeq
      rw [← haeq] at hu hty hab hba ⊢; rw [← hbeq] at hu hty hab hba ⊢
      exact hinv.2 la hla lb hlb hu hty hab hba

theorem createLimit_spec (limits : List LimitRow) (u : Int) (b : LimitBody) :
    ((createLimit limits u b).2 = limits ∧ ∀ r, (createLimit limits u b).1 ≠ .created r) ∨
    (∃ r : LimitRow, (createLimit limits u b).1 = .created r ∧
      (createLimit limits u b).2 = limits ++ [r] ∧
      r.id = freshId (limits.map (·.id)) ∧ r.user_id = u ∧
      findOverlappingLimit limits u r.period_type r.period_start r.period_end none = none) := by
  unfold createLimit
  dsimp only
  repeat' split
  all_goals simp_all

theorem updateLimit_spec (limits : List LimitRow) (u id : Int) (b : LimitBody) :
    ((updateLimit limits u id b).2 = limits ∧ ∀ r, (updateLimit limits u id b).1 ≠ .updated r) ∨
    (∃ row r : LimitRow, limits.find? (fun l => l.id == id && l.user_id == u) = some row ∧
      (updateLimit limits u id b).1 = .updated r ∧
      (updateLimit limits u id b).2 = limits.map (fun l => if l.id == row.id then r else l) ∧
      r.id = row.id ∧ r.user_id = row.user_id ∧
      findOverlappingLimit limits u r.period_type r.period_start r.period_end (some id) = none) := by
  unfold updateLimit
  dsimp only
  repeat' split
  all_goals simp_all

theorem createLimit_conflict (limits : List LimitRow) (u : Int) (b : LimitBody) (cid : Int)
    (h : (createLimit limits u b).1 = .conflict cid) :
    (createLimit limits u b).2 = limits ∧ ∃ l ∈ limits, l.id = cid := by
  unfold createLimit at h ⊢
  dsimp only at h ⊢
  repeat' split at h
  all_goals simp_all
  all_goals (refine ⟨by split <;> rfl, ?_⟩; rename_i heq; exact ⟨_, List.mem_of_find?_eq_some heq, h⟩)

theorem updateLimit_conflict (limits : List LimitRow) (u id : Int) (b : LimitBody) (cid : Int)
    (h : (updateLimit limits u id b).1 = .conflict cid) :
    (updateLimit limits u id b).2 = limits ∧ ∃ l ∈ limits, l.id = cid := by
  unfold updateLimit at h ⊢
  dsimp only at h ⊢
  repeat' split at h
  all_goals simp_all
  all_goals (refine ⟨by split <;> rfl, ?_⟩; rename_i heq; exact ⟨_, List.mem_of_find?_eq_some heq, h⟩)

/-! ## Proof infrastructure: tariff store -/

theorem createTariff_spec (today : String) (tariffs : List TariffRow) (u : Int)
    (b : TariffCreateBody) :
    ((createTariff today tariffs u b).2 = tariffs ∧
      ∀ r, (createTariff today tariffs u b).1 ≠ .created r) ∨
    ((newTariffRow tariffs u b).is_active = true ∧
      (createTariff today tariffs u b).1 = .created (newTariffRow tariffs u b) ∧
      (createTariff today tariffs u b).2 =
        deactivateOthers tariffs u (newTariffRow tariffs u b).id ++ [newTariffRow tariffs u b]) ∨
    ((newTariffRow tariffs u b).is_active = false ∧
      (createTariff today tariffs u b).1 = .created (newTariffRow tariffs u b) ∧
      (createTariff today tariffs u b).2 = tariffs ++ [newTariffRow tariffs u b]) := by
  unfold createTariff
  dsimp only
  repeat' split
  all_goals first
    | (left; exact ⟨rfl, fun r => by simp⟩)
    | (right; left; exact ⟨by simp_all [newTariffRow], rfl, rfl⟩)
    | (right; right; exact ⟨by simp_all [newTariffRow], rfl, rfl⟩)

theorem activateTariff_spec (today : String) (tariffs : List TariffRow) (u id : Int) :
    ((activateTariff today tariffs u id).2 = tariffs) ∨
    (∃ row, tariffs.find? (fun t => t.id == id && t.user_id == u) = some row ∧
      (activateTariff today tariffs u id).2 =
        replaceById (deactivateOthers tariffs u row.id) row.id { row with is_active := true }) := by
  unfold activateTariff
  repeat' split
  all_goals first
    | (left; rfl)
    | (right; exact ⟨_, by assumption, rfl⟩)

theorem patchTariff_spec (today : String) (tariffs : List TariffRow) (u id : Int)
    (b : TariffPatchBody) :
    ((patchTariff today tariffs u id b).2 = tariffs) ∨
    (∃ row, tariffs.find? (fun t => t.id == id && t.user_id == u) = some row ∧
      ((b.is_active = some (JSVal.vBool true) ∧
        (patchTariff today tariffs u id b).2 =
          replaceById (deactivateOthers tariffs u row.id) row.id (patchedTariffRow row b)) ∨
       (b.is_active ≠ some (JSVal.vBool true) ∧
        (patchTariff today tariffs u id b).2 =
          replaceById tariffs row.id (patchedTariffRow row b)))) := by
  unfold patchTariff
  dsimp only
  repeat' split
  all_goals first
    | (left; rfl)
    | (right; exact ⟨_, by assumption, Or.inl ⟨by simp_all, rfl⟩⟩)
    | (right; exact ⟨_, by assumption, Or.inr ⟨by simp_all, rfl⟩⟩)

theorem tariffIds_deactivateOthers (tariffs : List TariffRow) (u k : Int) :
    (deactivateOthers tariffs u k).map (·.id) = tariffs.map (·.id) := by
  unfold deactivateOthers
  rw [List.map_map]
  apply List.map_congr_left
  intro t _
  simp only [Function.comp_apply]
  split <;> rfl

theorem tariffIds_replaceById (tariffs : List TariffRow) (rid : Int) (r : TariffRow)
    (h : r.id = rid) :
    (replaceById tariffs rid r).map (·.id) = tariffs.map (·.id) := by
  unfold replaceById
  rw [List.map_map]
  apply List.map_congr_left
  intro t _
  simp only [Function.comp_apply]
  split
  · rename_i hc
    simp only [beq_iff_eq] at hc
    rw [h, hc]
  · rfl

theorem mem_active_deactivateOthers (tariffs : List TariffRow) (u k : Int) (x : TariffRow)
    (hx : x ∈ deactivateOthers tariffs u k) (hact : x.is_active = true) :
    x ∈ tariffs ∧ (x.user_id ≠ u ∨ x.id = k) := by
  rcases List.mem_map.mp hx with ⟨t, ht, rfl⟩
  by_cases h : (t.user_id == u && t.id != k) = true
  · rw [if_pos h] at hact
    exact absurd hact (by simp)
  · rw [if_neg h] at hact ⊢
    simp only [Bool.and_eq_true, beq_iff_eq, bne_iff_ne, ne_eq, not_and, not_not] at h
    refine ⟨ht, ?_⟩
    by_cases hu : t.user_id = u
    · exact Or.inr (h hu)
    · exact Or.inl hu

theorem tariffInvariant_deactivate_append (tariffs : List TariffRow)
    (u : Int) (r : TariffRow) (hinv : tariffInvariant tariffs)
    (hfresh : ∀ t ∈ tariffs, t.id ≠ r.id) (hu : r.user_id = u) :
    tariffInvariant (deactivateOthers tariffs u r.id ++ [r]) := by
  constructor
  · rw [List.map_append, tariffIds_deactivateOthers, List.nodup_append]
    refine ⟨hinv.1, List.nodup_singleton _, ?_⟩
    intro x hx
    rcases List.mem_map.mp hx with ⟨t, ht, rfl⟩
    simp only [List.map_cons, List.map_nil, List.mem_singleton]
    exact hfresh t ht
  · intro a ha b hb huser hact1 hact2
    rcases List.mem_append.mp ha with ha | ha <;> rcases List.mem_append.mp hb with hb | hb
    · obtain ⟨ha2, hau⟩ := mem_active_deactivateOthers tariffs u r.id a ha hact1
      obtain ⟨hb2, hbu⟩ := mem_active_deactivateOthers tariffs u r.id b hb hact2
      rcases hau with hau | hau
      · rcases hbu with hbu | hbu
        · exact hinv.2 a ha2 b hb2 huser hact1 hact2
        · exact absurd hbu (hfresh b hb2)
      · exact absurd hau (hfresh a ha2)
    · rw [List.mem_singleton.mp hb] at huser
      obtain ⟨ha2, hau⟩ := mem_active_deactivateOthers tariffs u r.id a ha hact1
      rcases hau with hau | hau
      · exact absurd (huser.trans hu) hau
      · exact absurd hau (hfresh a ha2)
    · rw [List.mem_singleton.mp ha] at huser
      obtain ⟨hb2, hbu⟩ := mem_active_deactivateOthers tariffs u r.id b hb hact2
      rcases hbu with hbu | hbu
      · exact absurd (huser.symm.trans hu) hbu
      · exact absurd hbu (hfresh b hb2)
    · rw [List.mem_singleton.mp ha, List.mem_singleton.mp hb]

theorem tariffInvariant_append_inactive (tariffs : List TariffRow) (r : TariffRow)
    (hinv : tariffInvariant tariffs)
    (hfresh : ∀ t ∈ tariffs, t.id ≠ r.id) (hr : r.is_active = false) :
    tariffInvariant (tariffs ++ [r]) := by
  constructor
  · rw [List.map_append, List.nodup_append]
    refine ⟨hinv.1, List.nodup_singleton _, ?_⟩
    intro x hx
    rcases List.mem_map.mp hx with ⟨t, ht, rfl⟩
    simp only [List.map_cons, List.map_nil, List.mem_singleton]
    exact hfresh t ht
  · intro a ha b hb huser hact1 hact2
    rcases List.mem_append.mp ha with ha | ha <;> rcases List.mem_append.mp hb with hb | hb
    · exact hinv.2 a ha b hb huser hact1 hact2
    · rw [List.mem_singleton.mp hb] at hact2
      rw [hr] at hact2
      exact absurd hact2 (by simp)
    · rw [List.mem_singleton.mp ha] at hact1
      rw [hr] at hact1
      exact absurd hact1 (by simp)
    · rw [List.mem_singleton.mp ha, List.mem_singleton.mp hb]

theorem mem_replaceById (tariffs : List TariffRow) (rid : Int) (r x : TariffRow)
    (hx : x ∈ replaceById tariffs rid r) :
    x = r ∨ (x ∈ tariffs ∧ x.id ≠ rid) := by
  rcases List.mem_map.mp hx with ⟨t, ht, rfl⟩
  by_cases h : (t.id == rid) = true
  · rw [if_pos h]; exact Or.inl rfl
  · rw [if_neg h]
    simp only [beq_iff_eq] at h
    exact Or.inr ⟨ht, h⟩

theorem tariffInvariant_activate (tariffs : List TariffRow) (u rid : Int) (r : TariffRow)
    (hinv : tariffInvariant tariffs) (hid : r.id = rid) (hu : r.user_id = u) :
    tariffInvariant (replaceById (deactivateOthers tariffs u rid) rid r) := by
  constructor
  · rw [tariffIds_replaceById _ _ _ hid, tariffIds_deactivateOthers]
    exact hinv.1
  · intro a ha b hb huser hact1 hact2
    rcases mem_replaceById _ _ _ _ ha with ha | ⟨ha, haid⟩ <;>
      rcases mem_replaceById _ _ _ _ hb with hb | ⟨hb, hbid⟩
    · rw [ha, hb]
    · obtain ⟨hb2, hbu⟩ := mem_active_deactivateOthers tariffs u rid b hb hact2
      rcases hbu with hbu | hbu
      · rw [ha] at huser
        exact absurd (huser.symm.trans hu) hbu
      · exact absurd hbu hbid
    · obtain ⟨ha2, hau⟩ := mem_active_deactivateOthers tariffs u rid a ha hact1
      rcases hau with hau | hau
      · rw [hb] at huser
        exact absurd (huser.trans hu) hau
      · exact absurd hau haid
    · obtain ⟨ha2, hau⟩ := mem_active_deactivateOthers tariffs u rid a ha hact1
      obtain ⟨hb2, hbu⟩ := mem_active_deactivateOthers tariffs u rid b hb hact2
      rcases hau with hau | hau
      · rcases hbu with hbu | hbu
        · exact hinv.2 a ha2 b hb2 huser hact1 hact2
        · exact absurd hbu hbid
      · exact absurd hau haid

theorem tariffInvariant_replace_noact (tariffs : List TariffRow) (rid : Int) (r row : TariffRow)
    (hinv : tariffInvariant tariffs) (hrow : row ∈ tariffs) (hrowid : row.id = rid)
    (hid : r.id = rid) (hu : r.user_id = row.user_id)
    (hact : r.is_active = true → row.is_active = true) :
    tariffInvariant (replaceById tariffs rid r) := by
  constructor
  · rw [tariffIds_replaceById _ _ _ hid]
    exact hinv.1
  · intro a ha b hb huser hact1 hact2
    rcases mem_replaceById _ _ _ _ ha with ha | ⟨ha, haid⟩ <;>
      rcases mem_replaceById _ _ _ _ hb with hb | ⟨hb, hbid⟩
    · rw [ha, hb]
    · rw [ha] at huser hact1 ⊢
      have hrowact := hact hact1
      have := hinv.2 row hrow b hb (hu.symm.trans huser) hrowact hact2
      rw [hrowid] at this
      exact absurd this.symm hbid
    · rw [hb] at huser hact2 ⊢
      have hrowact := hact hact2
      have := hinv.2 row hrow a ha (hu.symm.trans huser.symm) hrowact hact1
      rw [hrowid] at this
      exact absurd this.symm haid
    · exact hinv.2 a ha b hb huser hact1 hact2

theorem newTariffRow_active (tariffs : List TariffRow) (u : Int) (b : TariffCreateBody) :
    (newTariffRow tariffs u b).is_active = true ↔ b.is_active ≠ some (JSVal.vBool false) := by
  simp [newTariffRow]

/-! ## Proof infrastructure: consumption, admin, period-end resolution -/

theorem createConsumption_eval (tariffs : List TariffRow) (appliances : List ApplianceRow)
    (records : List ConsumptionRow) (u : Int) (body : ConsumptionCreateBody)
    (t : TariffRow) (appliance : Option ApplianceRow) (kwh : ℚ) (d : Ymd)
    (hboth : (body.consumption_kwh.isSome && body.usage_hours.isSome) = false)
    (hdate : body.record_date = some d)
    (hvalid : isValidISODate d = true)
    (hone : getActiveTariffStrict tariffs u = .one t)
    (hap : lookupAppliance appliances u body.appliance_id = .ok appliance)
    (hkwh : computeKwh body.consumption_kwh body.usage_hours appliance = .ok kwh)
    (hprice : 0 ≤ t.price_per_kwh) :
    createConsumptionRecord tariffs appliances records u body =
      (.created
        { id := freshId (records.map (·.id)), user_id := u,
          appliance_id := appliance.map (·.id),
          consumption_kwh := toFixedQ kwh 3,
          applied_price_per_kwh := toFixedQ t.price_per_kwh 4,
          cost := toFixedQ (toFixedQ kwh 3 * toFixedQ t.price_per_kwh 4) 4,
          record_date := parseDateUTC d,
          notes := body.notes.bind fun s => if s = "" then none else some s },
        records ++
          [{ id := freshId (records.map (·.id)), user_id := u,
             appliance_id := appliance.map (·.id),
             consumption_kwh := toFixedQ kwh 3,
             applied_price_per_kwh := toFixedQ t.price_per_kwh 4,
             cost := toFixedQ (toFixedQ kwh 3 * toFixedQ t.price_per_kwh 4) 4,
             record_date := parseDateUTC d,
             notes := body.notes.bind fun s => if s = "" then none else some s }]) := by
  unfold createConsumptionRecord
  rw [hboth, hdate]
  simp only [hvalid, hone, hap, hkwh]
  simp [not_lt.mpr hprice]

theorem patchConsumption_tariff_errors (tariffs : List TariffRow) (appliances : List ApplianceRow)
    (records : List ConsumptionRow) (u id : Int) (body : ConsumptionPatchBody)
    (row : ConsumptionRow) (nd : Ymd)
    (hfind : records.find? (fun r => r.id == id && r.user_id == u) = some row)
    (hboth : (body.consumption_kwh.isSome && body.usage_hours.isSome) = false)
    (hdate : (match body.record_date with
              | none => ymdOfCivil row.record_date
              | some dd => dd) = nd)
    (hvalid : isValidISODate nd = true) :
    (getActiveTariffStrict tariffs u = .noActive →
      patchConsumptionRecord tariffs appliances records u id body =
        (.badRequest "No active tariff. Please create a tariff and set it as active.", records)) ∧
    (∀ ids, getActiveTariffStrict tariffs u = .manyActive ids →
      patchConsumptionRecord tariffs appliances records u id body =
        (.conflict ids, records)) := by
  constructor
  · intro hzero
    unfold patchConsumptionRecord
    rw [hfind]
    simp [hboth, hdate, hvalid, hzero]
  · intro ids hmany
    unfold patchConsumptionRecord
    rw [hfind]
    simp [hboth, hdate, hvalid, hmany]

theorem patchConsumption_dateNotes_eval (tariffs : List TariffRow)
    (appliances : List ApplianceRow) (records : List ConsumptionRow) (u id : Int)
    (rdOpt : Option Ymd) (notesB : Option (Option String))
    (row : ConsumptionRow) (t : TariffRow) (nd : Ymd)
    (hfind : records.find? (fun r => r.id == id && r.user_id == u) = some row)
    (hdate : (match rdOpt with
              | none => ymdOfCivil row.record_date
              | some dd => dd) = nd)
    (hvalid : isValidISODate nd = true)
    (hone : getActiveTariffStrict tariffs u = .one t)
    (hkwh : 0 < row.consumption_kwh)
    (hprice : 0 ≤ t.price_per_kwh) :
    patchConsumptionRecord tariffs appliances records u id
        ⟨none, none, none, rdOpt, notesB⟩ =
      (.updated
        { row with
          consumption_kwh := toFixedQ row.consumption_kwh 3,
          applied_price_per_kwh := toFixedQ t.price_per_kwh 4,
          cost := toFixedQ (toFixedQ row.consumption_kwh 3 * toFixedQ t.price_per_kwh 4) 4,
          record_date := parseDateUTC nd,
          notes := match notesB with
                   | none => row.notes
                   | some v => v.bind fun s => if s = "" then none else some s },
        records.map (fun r =>
          if r.id == row.id then
            { row with
              consumption_kwh := toFixedQ row.consumption_kwh 3,
              applied_price_per_kwh := toFixedQ t.price_per_kwh 4,
              cost := toFixedQ (toFixedQ row.consumption_kwh 3 * toFixedQ t.price_per_kwh 4) 4,
              record_date := parseDateUTC nd,
              notes := match notesB with
                       | none => row.notes
                       | some v => v.bind fun s => if s = "" then none else some s }
          else r)) := by
  unfold patchConsumptionRecord
  rw [hfind]
  dsimp only
  rw [hdate]
  simp only [hvalid, hone, resolveApplianceForUser, lookupAppliance]
  simp [not_lt.mpr hprice, not_lt.mpr (le_of_lt hkwh), hkwh]

theorem resolveAppliance_error_shape (appliances : List ApplianceRow) (u : Int)
    (aid : Option (Option Int)) (resp : ConsumptionResp)
    (h : resolveApplianceForUser appliances u aid = .error resp) :
    resp = .notFound "appliance not found" := by
  unfold resolveApplianceForUser at h
  repeat' split at h
  all_goals simp_all

theorem patchConsumption_success (tariffs : List TariffRow) (appliances : List ApplianceRow)
    (records : List ConsumptionRow) (u id : Int) (body : ConsumptionPatchBody)
    (r : ConsumptionRow)
    (h : (patchConsumptionRecord tariffs appliances records u id body).1 = .updated r) :
    ∃ (row : ConsumptionRow) (t : TariffRow) (kwh : ℚ),
      records.find? (fun x => x.id == id && x.user_id == u) = some row ∧
      getActiveTariffStrict tariffs u = .one t ∧
      r.applied_price_per_kwh = toFixedQ t.price_per_kwh 4 ∧
      r.consumption_kwh = toFixedQ kwh 3 ∧
      r.cost = toFixedQ (toFixedQ kwh 3 * toFixedQ t.price_per_kwh 4) 4 ∧
      (patchConsumptionRecord tariffs appliances records u id body).2 =
        records.map (fun x => if x.id == row.id then r else x) := by
  rcases hP : patchConsumptionRecord tariffs appliances records u id body with ⟨resp, st⟩
  rw [hP] at h
  dsimp only at h ⊢
  unfold patchConsumptionRecord at hP
  dsimp only at hP
  repeat' split at hP
  all_goals
    first
    | (exfalso
       rename_i heq
       have := resolveAppliance_error_shape _ _ _ _ heq
       simp_all)
    | simp_all
  all_goals
    (obtain ⟨h1, h2⟩ := hP
     subst h1
     subst h2
     exact ⟨rfl, _, rfl, rfl, rfl⟩)

theorem adminGuard_parts (users : List UserRow) (callerId targetId : Int) (nr : String) (v : JSVal)
    (user : UserRow) :
    (0 < targetId → targetId ≠ callerId → ROLES.contains nr = true → nr ≠ "admin" →
      users.find? (fun x => x.id == targetId) = some user →
      user.role = "admin" → countActiveAdmins users ≤ 1 →
      changeUserRole users callerId targetId (some nr) =
        (.conflict "cannot remove role from the last active admin", users)) ∧
    (0 < targetId → parseBool v = some true → targetId ≠ callerId →
      users.find? (fun x => x.id == targetId) = some user →
      user.role = "admin" → countActiveAdmins users ≤ 1 →
      setUserBlocked users callerId targetId (some v) =
        (.conflict "cannot block the last active admin", users)) ∧
    (0 < targetId → targetId = callerId → ROLES.contains nr = true → nr ≠ "admin" →
      changeUserRole users callerId targetId (some nr) =
        (.badRequest "cannot change own role", users)) ∧
    (0 < targetId → parseBool v = some true → targetId = callerId →
      setUserBlocked users callerId targetId (some v) =
        (.badRequest "cannot block own account", users)) := by
  refine ⟨?_, ?_, ?_, ?_⟩
  · intro hpos hne hrole hnadm hfind hadmin hcount
    have hmem : nr ∈ ROLES := by simpa using hrole
    unfold changeUserRole
    simp [hpos, hne, hmem, hnadm, hfind, hadmin, hcount]
  · intro hpos hparse hne hfind hadmin hcount
    unfold setUserBlocked
    simp [hpos, hparse, hne, hfind, hadmin, hcount]
  · intro hpos heq hrole hnadm
    have hmem : nr ∈ ROLES := by simpa using hrole
    subst heq
    unfold changeUserRole
    simp [hpos, hmem, hnadm]
  · intro hpos hparse heq
    subst heq
    unfold setUserBlocked
    simp [hpos, hparse]

theorem resolveEnd_parts (type : String) (start e : Ymd) (endFromDb : Option CivilDate)
    (htype : type = "week" ∨ type = "month" ∨ type = "year") :
    (∀ d, resolvePeriodEndOrFail type start (some e) endFromDb = .ok d →
      isValidISODate e = true ∧ some (isoRaw e) = calcAutoPeriodEnd type start) ∧
    (isValidISODate e = true → some (isoRaw e) ≠ calcAutoPeriodEnd type start →
      ∃ autoEnd, calcAutoPeriodEnd type start = some autoEnd ∧
        resolvePeriodEndOrFail type start (some e) endFromDb =
          .fail ("period_end is auto-calculated for period_type=" ++ type ++ ". Expected " ++
            autoEnd) (some autoEnd)) ∧
    (isValidISODate e = false →
      resolvePeriodEndOrFail type start (some e) endFromDb =
        .fail "period_end must be YYYY-MM-DD" none) := by
  have hnc : ¬ type = "custom" := by rcases htype with h | h | h <;> subst h <;> decide
  have hauto : ∃ ad, calcAutoPeriodEndDate type (parseDateUTC start) = some ad := by
    rcases htype with h | h | h <;> subst h <;> exact ⟨_, rfl⟩
  obtain ⟨ad, had⟩ := hauto
  refine ⟨?_, ?_, ?_⟩
  · intro d hok
    unfold resolvePeriodEndOrFail at hok
    rw [if_neg hnc, had] at hok
    by_cases hv : isValidISODate e = true
    · refine ⟨hv, ?_⟩
      simp only [hv, Bool.not_true, if_false] at hok
      by_cases hmis : isoRaw e ≠ formatDateUTC ad
      · rw [if_pos hmis] at hok
        exact absurd hok (by simp)
      · push_neg at hmis
        simp [calcAutoPeriodEnd, had, hmis]
    · exfalso
      simp only [Bool.not_eq_true] at hv
      simp [hv] at hok
  · intro hv hmis
    rw [calcAutoPeriodEnd, had] at hmis
    have hmis2 : ¬ (isoRaw e = formatDateUTC ad) := by simpa using hmis
    refine ⟨formatDateUTC ad, by simp [calcAutoPeriodEnd, had], ?_⟩
    unfold resolvePeriodEndOrFail
    rw [if_neg hnc, had]
    simp [hv, hmis2]
  · intro hv
    unfold resolvePeriodEndOrFail
    rw [if_neg hnc, had]
    simp [hv]

theorem createLimit_badRequest (limits : List LimitRow) (u : Int) (b : LimitBody)
    (msg : String) (exp : Option String)
    (h : (createLimit limits u b).1 = .badRequest msg exp) :
    (createLimit limits u b).2 = limits := by
  rcases createLimit_spec limits u b with ⟨hst, _⟩ | ⟨r, hresp, _⟩
  · exact hst
  · rw [hresp] at h
    exact absurd h (by simp)

theorem updateLimit_badRequest (limits : List LimitRow) (u id : Int) (b : LimitBody)
    (msg : String) (exp : Option String)
    (h : (updateLimit limits u id b).1 = .badRequest msg exp) :
    (updateLimit limits u id b).2 = limits := by
  rcases updateLimit_spec limits u id b with ⟨hst, _⟩ | ⟨row, r, _, hresp, _⟩
  · exact hst
  · rw [hresp] at h
    exact absurd h (by simp)

theorem normalizeLimitRow_status (r : RawLimitRow) :
    (normalizeLimitRow r).status =
      limitStatusSpec
        (if 0 < r.limit_kwh then r.used_kwh / r.limit_kwh * 100 else 0)
        r.alert_enabled
        (if r.alert_threshold_percent == 0 then 80 else r.alert_threshold_percent) ∧
    ¬((normalizeLimitRow r).threshold_reached = true ∧
      (normalizeLimitRow r).limit_exceeded = true) := by
  unfold normalizeLimitRow limitStatusSpec
  dsimp only
  constructor
  · split_ifs <;> simp_all
  · split_ifs <;> simp_all

/-! ## Shared fixture facts -/

theorem fixtureTariffs_invariant :
    tariffInvariant [fixtureTariffActive, fixtureTariffInactive] := by
  constructor
  · decide
  · intro a ha b hb h1 h2 h3
    fin_cases ha <;> fin_cases hb <;> simp_all [fixtureTariffActive, fixtureTariffInactive]

theorem fixtureLimit_invariant : limitsInvariant [fixtureLimitDecember] := by
  constructor
  · decide
  · intro a ha b hb h1 h2 h3 h4
    fin_cases ha
    fin_cases hb
    rfl

/-! ## Claims -/

/-- C1 counterexample: for the start date 2025-01-31 with period_type
month, the code computes the end date 2025-02-27 (clamp Jan 31 to Feb 28,
then subtract one day), not 2025-02-28 as the claim asserts. -/
theorem c1_counterexample :
    calcAutoPeriodEnd "month" ⟨2025, 1, 31⟩ = some "2025-02-27" ∧
    calcAutoPeriodEnd "month" ⟨2025, 1, 31⟩ ≠ some "2025-02-28" := by
  decide

/-- C1 (amended): for every valid ISO start date with period_type month,
the computed period end is (start + 1 month with the day-of-month clamped
to the shorter target month's length) minus one day — `monthEndSpec`, the
claim's general formula; in particular start 2025-01-31 yields end
2025-02-27 (not 2025-02-28: the end is the last day of the start's month
only when the start is the first of a month). -/
theorem c1_month_period_end :
    (∀ s : Ymd, isValidISODate s = true →
      calcAutoPeriodEnd "month" s = some (formatDateUTC (monthEndSpec s))) ∧
    calcAutoPeriodEnd "month" ⟨2025, 1, 31⟩ = some "2025-02-27" := by
  constructor
  · intro s h
    rw [calcAutoPeriodEnd, monthEnd_eq s h]
    rfl
  · decide

theorem c1_month_period_end_witness :
    isValidISODate ⟨2025, 3, 15⟩ = true ∧
    calcAutoPeriodEnd "month" ⟨2025, 3, 15⟩ =
      some (formatDateUTC (monthEndSpec ⟨2025, 3, 15⟩)) :=
  ⟨by decide, c1_month_period_end.1 ⟨2025, 3, 15⟩ (by decide)⟩

/-- C4 counterexample: `GET /api/limits/:id/progress` computes its
`threshold_reached` flag without excluding `limit_exceeded`; with
limit_kwh 100, used 100, alerts enabled and threshold 80 it reports both
flags true for the same limit. -/
theorem c4_counterexample :
    (limitProgress [fixtureLimitDecember] [fixtureRecordDecember] 1 1).map
        (fun p => (p.threshold_reached, p.limit_exceeded)) = some (true, true) := by
  have h1 : ((100 : ℚ) / 100 * 100) = 100 := by norm_num
  have h2 : (80 : ℚ) ≤ 100 := by norm_num
  simp [limitProgress, fixtureLimitDecember, fixtureRecordDecember, dateLE, h1, h2]

/-- C4 (amended): `normalizeLimitRow` — the classification used by the
reports endpoints — evaluates the status with the claimed precedence
(limit_exceeded if percent ≥ 100, else threshold_reached if alerts are on
and percent ≥ threshold, else ok), and never reports both
`threshold_reached` and `limit_exceeded`; the `GET /api/limits/:id/progress`
endpoint, in contrast, computes the two flags independently and can
report both true (see the counterexample). -/
theorem c4_status_precedence (r : RawLimitRow) :
    (normalizeLimitRow r).status =
      limitStatusSpec
        (if 0 < r.limit_kwh then r.used_kwh / r.limit_kwh * 100 else 0)
        r.alert_enabled
        (if r.alert_threshold_percent == 0 then 80 else r.alert_threshold_percent) ∧
    ¬((normalizeLimitRow r).threshold_reached = true ∧
      (normalizeLimitRow r).limit_exceeded = true) :=
  normalizeLimitRow_status r

/-- C8: activating an already-active tariff returns that row unchanged
and performs no writes: the store is returned exactly as it was. -/
theorem c8_activate_idempotent (today : String) (tariffs : List TariffRow) (u id : Int)
    (row : TariffRow)
    (hfind : tariffs.find? (fun t => t.id == id && t.user_id == u) = some row)
    (hact : row.is_active = true) :
    activateTariff today tariffs u id = (.okRow row, tariffs) := by
  unfold activateTariff
  rw [hfind]
  simp [hact]

theorem c8_activate_idempotent_witness :
    [fixtureTariffActive].find? (fun t => t.id == (1 : Int) && t.user_id == (1 : Int)) =
      some fixtureTariffActive ∧
    activateTariff "2025-06-15" [fixtureTariffActive] 1 1 =
      (.okRow fixtureTariffActive, [fixtureTariffActive]) :=
  ⟨rfl, c8_activate_idempotent "2025-06-15" [fixtureTariffActive] 1 1 fixtureTariffActive
    rfl rfl⟩

/-- C2: limit create and update preserve the per-(user, period_type)
non-overlap invariant (inclusive range intersection); a conflicting
request returns 409 with a persisted colliding limit's id and leaves the
store unchanged; and a successful create or update never persists a range
that intersects another limit of the same user and period type (for
update, excluding the updated record itself). -/
theorem c2_limit_overlap_invariant (limits : List LimitRow) (userId id : Int)
    (body : LimitBody) (hinv : limitsInvariant limits) :
    limitsInvariant (createLimit limits userId body).2 ∧
    limitsInvariant (updateLimit limits userId id body).2 ∧
    (∀ cid, (createLimit limits userId body).1 = .conflict cid →
      (createLimit limits userId body).2 = limits ∧ ∃ l ∈ limits, l.id = cid) ∧
    (∀ cid, (updateLimit limits userId id body).1 = .conflict cid →
      (updateLimit limits userId id body).2 = limits ∧ ∃ l ∈ limits, l.id = cid) ∧
    (∀ r, (createLimit limits userId body).1 = .created r →
      ∀ l ∈ limits, l.user_id = r.user_id → l.period_type = r.period_type →
        ¬(dateLE l.period_start r.period_end = true ∧
          dateLE r.period_start l.period_end = true)) ∧
    (∀ r, (updateLimit limits userId id body).1 = .updated r →
      ∀ l ∈ limits, l.id ≠ id → l.user_id = r.user_id → l.period_type = r.period_type →
        ¬(dateLE l.period_start r.period_end = true ∧
          dateLE r.period_start l.period_end = true)) := by
  have hfreshL : ∀ l ∈ limits, l.id ≠ freshId (limits.map (·.id)) := by
    intro l hl
    have := freshId_gt (limits.map (·.id)) l.id (List.mem_map.mpr ⟨l, hl, rfl⟩)
    omega
  refine ⟨?_, ?_, ?_, ?_, ?_, ?_⟩
  · rcases createLimit_spec limits userId body with ⟨hst, _⟩ | ⟨r, hresp, hst, hid, huser, hfind⟩
    · rw [hst]; exact hinv
    · rw [hst]
      refine limitsInvariant_append limits r hinv (fun l hl => hid ▸ hfreshL l hl) ?_
      intro l hl hu hty
      exact find_none_overlap limits userId r.period_type r.period_start r.period_end hfind
        l hl (huser ▸ hu) hty
  · rcases updateLimit_spec limits userId id body with ⟨hst, _⟩ |
      ⟨row, r, hfindrow, hresp, hst, hid, huser, hfind⟩
    · rw [hst]; exact hinv
    · obtain ⟨hrowmem, hrowid, hrowu⟩ := find_limit_props limits userId id row hfindrow
      rw [hst]
      refine limitsInvariant_replace limits row.id r hinv hid ?_
      intro l hl hne hu hty
      refine find_none_overlap_excl limits userId id r.period_type r.period_start r.period_end
        hfind l hl (by rw [← hrowid]; exact hne) ?_ hty
      rw [hu, huser, hrowu]
  · exact fun cid h => createLimit_conflict limits userId body cid h
  · exact fun cid h => updateLimit_conflict limits userId id body cid h
  · intro r hcr l hl hu hty
    rcases createLimit_spec limits userId body with ⟨hst, hnc⟩ | ⟨r0, hresp, hst, hid, huser, hfind⟩
    · exact absurd hcr (hnc r)
    · rw [hcr] at hresp
      have hrr : r0 = r := by injection hresp with h2; exact h2.symm
      subst hrr
      exact find_none_overlap limits userId r0.period_type r0.period_start r0.period_end hfind
        l hl (huser ▸ hu) hty
  · intro r hcr l hl hne hu hty
    rcases updateLimit_spec limits userId id body with ⟨hst, hnc⟩ |
      ⟨row, r0, hfindrow, hresp, hst, hid, huser, hfind⟩
    · exact absurd hcr (hnc r)
    · obtain ⟨hrowmem, hrowid, hrowu⟩ := find_limit_props limits userId id row hfindrow
      rw [hcr] at hresp
      have hrr : r0 = r := by injection hresp with h2; exact h2.symm
      subst hrr
      refine find_none_overlap_excl limits userId id r0.period_type r0.period_start
        r0.period_end hfind l hl hne ?_ hty
      rw [hu, huser, hrowu]

theorem c2_limit_overlap_invariant_witness :
    limitsInvariant [fixtureLimitDecember] ∧
    limitsInvariant (createLimit [fixtureLimitDecember] 1
      ⟨some 50, some "month", some ⟨2025, 12, 15⟩, none, none, none⟩).2 :=
  ⟨fixtureLimit_invariant,
    (c2_limit_overlap_invariant [fixtureLimitDecember] 1 1
      ⟨some 50, some "month", some ⟨2025, 12, 15⟩, none, none, none⟩
      fixtureLimit_invariant).1⟩

/-- C3 counterexample: patching a tariff with the non-boolean truthy
value `is_active: 1` makes the row active without deactivating the
user's other tariffs (the deactivation runs only on `is_active === true`),
so a store satisfying the single-active invariant ends with two active
tariffs for user 1. -/
theorem c3_counterexample :
    tariffInvariant [fixtureTariffActive, fixtureTariffInactive] ∧
    ¬ atMostOneActivePerUser
        (patchTariff "2025-06-15" [fixtureTariffActive, fixtureTariffInactive] 1 2
          fixturePatchActiveNum).2 := by
  refine ⟨fixtureTariffs_invariant, ?_⟩
  intro hmono
  have hstate : (patchTariff "2025-06-15" [fixtureTariffActive, fixtureTariffInactive] 1 2
      fixturePatchActiveNum).2 =
      [fixtureTariffActive, { fixtureTariffInactive with is_active := true }] := by
    have hassert : assertCanBeActiveNow "2025-06-15" (some "2025-01-01") none = true := by
      decide
    have hjs : jsTruthy (JSVal.vNum 1) = true := by norm_num [jsTruthy]
    simp [patchTariff, fixtureTariffActive, fixtureTariffInactive, fixturePatchActiveNum,
      hassert, hjs, patchedTariffRow, replaceById, deactivateOthers]
  rw [hstate] at hmono
  have h := hmono
    fixtureTariffActive (by simp)
    { fixtureTariffInactive with is_active := true } (by simp)
    (by decide) (by decide) (by decide)
  exact absurd h (by decide)

/-- C3 (amended): tariff create (any request), activate, and patch
requests whose `is_active` field is absent or boolean preserve the
"at most one active tariff per user" invariant; a patch carrying a
non-boolean truthy `is_active` (e.g. the number 1) can leave two active
tariffs (see the counterexample), because only `is_active === true`
triggers the deactivation of the user's other tariffs. -/
theorem c3_single_active_tariff (today : String) (tariffs : List TariffRow) (u id : Int)
    (cbody : TariffCreateBody) (pbody : TariffPatchBody)
    (hinv : tariffInvariant tariffs)
    (hb : pbody.is_active = none ∨ ∃ bb, pbody.is_active = some (JSVal.vBool bb)) :
    tariffInvariant (createTariff today tariffs u cbody).2 ∧
    tariffInvariant (patchTariff today tariffs u id pbody).2 ∧
    tariffInvariant (activateTariff today tariffs u id).2 := by
  have hfreshT : ∀ t ∈ tariffs, t.id ≠ freshId (tariffs.map (·.id)) := by
    intro t ht
    have := freshId_gt (tariffs.map (·.id)) t.id (List.mem_map.mpr ⟨t, ht, rfl⟩)
    omega
  refine ⟨?_, ?_, ?_⟩
  · rcases createTariff_spec today tariffs u cbody with ⟨hst, _⟩ | ⟨hact, hresp, hst⟩ |
      ⟨hact, hresp, hst⟩
    · rw [hst]; exact hinv
    · rw [hst]
      exact tariffInvariant_deactivate_append tariffs u _ hinv hfreshT rfl
    · rw [hst]
      exact tariffInvariant_append_inactive tariffs _ hinv hfreshT hact
  · rcases patchTariff_spec today tariffs u id pbody with hst | ⟨row, hfind, hcase⟩
    · rw [hst]; exact hinv
    · obtain ⟨hrow, hrowid, hrowu⟩ := find_tariff_props tariffs u id row hfind
      rcases hcase with ⟨hba, hst⟩ | ⟨hbne, hst⟩
      · rw [hst]
        exact tariffInvariant_activate tariffs u row.id (patchedTariffRow row pbody) hinv rfl
          (by rw [← hrowu]; rfl)
      · rw [hst]
        refine tariffInvariant_replace_noact tariffs row.id (patchedTariffRow row pbody) row
          hinv hrow rfl rfl rfl ?_
        rcases hb with hb | ⟨bb, hb⟩
        · simp [patchedTariffRow, hb]
        · cases bb
          · simp [patchedTariffRow, hb, jsTruthy]
          · exact absurd hb hbne
  · rcases activateTariff_spec today tariffs u id with hst | ⟨row, hfind, hst⟩
    · rw [hst]; exact hinv
    · obtain ⟨hrow, hrowid, hrowu⟩ := find_tariff_props tariffs u id row hfind
      rw [hst]
      exact tariffInvariant_activate tariffs u row.id _ hinv rfl
        (by rw [← hrowu])

theorem c3_single_active_tariff_witness :
    tariffInvariant [fixtureTariffActive, fixtureTariffInactive] ∧
    tariffInvariant (activateTariff "2025-06-15"
      [fixtureTariffActive, fixtureTariffInactive] 1 2).2 :=
  ⟨fixtureTariffs_invariant,
    (c3_single_active_tariff "2025-06-15" [fixtureTariffActive, fixtureTariffInactive] 1 2
      ⟨none, none, none, none, none⟩ ⟨none, none, none, none, none⟩
      fixtureTariffs_invariant (Or.inl rfl)).2.2⟩

/-- C5: a successful consumption-record creation persists
`kwh` rounded to 3 decimals, the active tariff's price rounded to
4 decimals as the `applied_price_per_kwh` snapshot, and
`cost = round4(round3(kwh) * round4(price))`; in particular
kwh 3.5 at price 4.32 persists the cost string "15.1200" and the price
string "4.3200". -/
theorem c5_cost_rounding :
    (∀ (tariffs : List TariffRow) (appliances : List ApplianceRow)
      (records : List ConsumptionRow) (u : Int) (body : ConsumptionCreateBody)
      (t : TariffRow) (appliance : Option ApplianceRow) (kwh : ℚ) (d : Ymd),
      (body.consumption_kwh.isSome && body.usage_hours.isSome) = false →
      body.record_date = some d →
      isValidISODate d = true →
      getActiveTariffStrict tariffs u = .one t →
      lookupAppliance appliances u body.appliance_id = .ok appliance →
      computeKwh body.consumption_kwh body.usage_hours appliance = .ok kwh →
      0 ≤ t.price_per_kwh →
      createConsumptionRecord tariffs appliances records u body =
        (.created
          { id := freshId (records.map (·.id)), user_id := u,
            appliance_id := appliance.map (·.id),
            consumption_kwh := toFixedQ kwh 3,
            applied_price_per_kwh := toFixedQ t.price_per_kwh 4,
            cost := toFixedQ (toFixedQ kwh 3 * toFixedQ t.price_per_kwh 4) 4,
            record_date := parseDateUTC d,
            notes := body.notes.bind fun s => if s = "" then none else some s },
          records ++
            [{ id := freshId (records.map (·.id)), user_id := u,
               appliance_id := appliance.map (·.id),
               consumption_kwh := toFixedQ kwh 3,
               applied_price_per_kwh := toFixedQ t.price_per_kwh 4,
               cost := toFixedQ (toFixedQ kwh 3 * toFixedQ t.price_per_kwh 4) 4,
               record_date := parseDateUTC d,
               notes := body.notes.bind fun s => if s = "" then none else some s }])) ∧
    decimalString (toFixedQ (3.5 : ℚ) 3 * toFixedQ (4.32 : ℚ) 4) 4 = "15.1200" ∧
    decimalString (4.32 : ℚ) 4 = "4.3200" := by
  refine ⟨createConsumption_eval, ?_, ?_⟩
  · have e1 : toFixedQ (3.5 : ℚ) 3 = 7 / 2 := by norm_num [toFixedQ, jsToFixedInt]
    have e2 : toFixedQ (4.32 : ℚ) 4 = 108 / 25 := by norm_num [toFixedQ, jsToFixedInt]
    have e3 : jsToFixedInt ((7 : ℚ) / 2 * (108 / 25)) 4 = 151200 := by
      norm_num [jsToFixedInt]
    rw [e1, e2, decimalString, e3]
    decide
  · have e4 : jsToFixedInt (4.32 : ℚ) 4 = 43200 := by norm_num [jsToFixedInt]
    rw [decimalString, e4]
    decide

theorem c5_cost_rounding_witness :
    getActiveTariffStrict [fixtureTariffActive] 1 = .one fixtureTariffActive ∧
    createConsumptionRecord [fixtureTariffActive] [] [] 1 fixtureC5Body =
      (.created
        { id := freshId (([] : List ConsumptionRow).map (·.id)), user_id := 1,
          appliance_id := (none : Option ApplianceRow).map (·.id),
          consumption_kwh := toFixedQ 3.5 3,
          applied_price_per_kwh := toFixedQ fixtureTariffActive.price_per_kwh 4,
          cost := toFixedQ (toFixedQ 3.5 3 * toFixedQ fixtureTariffActive.price_per_kwh 4) 4,
          record_date := parseDateUTC ⟨2025, 12, 14⟩,
          notes := fixtureC5Body.notes.bind fun s => if s = "" then none else some s },
        [] ++
          [{ id := freshId (([] : List ConsumptionRow).map (·.id)), user_id := 1,
             appliance_id := (none : Option ApplianceRow).map (·.id),
             consumption_kwh := toFixedQ 3.5 3,
             applied_price_per_kwh := toFixedQ fixtureTariffActive.price_per_kwh 4,
             cost := toFixedQ (toFixedQ 3.5 3 * toFixedQ fixtureTariffActive.price_per_kwh 4) 4,
             record_date := parseDateUTC ⟨2025, 12, 14⟩,
             notes := fixtureC5Body.notes.bind fun s => if s = "" then none else some s }]) :=
  ⟨rfl, c5_cost_rounding.1 [fixtureTariffActive] [] [] 1 fixtureC5Body fixtureTariffActive
    none 3.5 ⟨2025, 12, 14⟩ rfl rfl (by decide) rfl rfl
    (by norm_num [computeKwh, fixtureC5Body]) (by norm_num [fixtureTariffActive])⟩

/-- C6 counterexample: a malformed supplied period_end (here 2025-02-30,
which matches the date regex but is not a calendar date) differs from the
auto-computed end, yet the 400 response carries no expected_period_end.
-/
theorem c6_counterexample :
    resolvePeriodEndOrFail "month" ⟨2025, 1, 1⟩ (some ⟨2025, 2, 30⟩) none =
      .fail "period_end must be YYYY-MM-DD" none ∧
    some (isoRaw ⟨2025, 2, 30⟩) ≠ calcAutoPeriodEnd "month" ⟨2025, 1, 1⟩ := by
  decide

/-- C6 (amended): for period_type week, month or year with a supplied
period_end, the operation succeeds only if the supplied string exactly
equals the auto-computed end; a well-formed but mismatched end fails with
400 carrying expected_period_end = the computed value; a malformed end
fails with 400 without expected_period_end; and a limit create or update
that returns 400 persists nothing. -/
theorem c6_period_end_mismatch (type : String) (start e : Ymd) (endFromDb : Option CivilDate)
    (limits : List LimitRow) (u id : Int) (body : LimitBody)
    (htype : type = "week" ∨ type = "month" ∨ type = "year") :
    (∀ d, resolvePeriodEndOrFail type start (some e) endFromDb = .ok d →
      isValidISODate e = true ∧ some (isoRaw e) = calcAutoPeriodEnd type start) ∧
    (isValidISODate e = true → some (isoRaw e) ≠ calcAutoPeriodEnd type start →
      ∃ autoEnd, calcAutoPeriodEnd type start = some autoEnd ∧
        resolvePeriodEndOrFail type start (some e) endFromDb =
          .fail ("period_end is auto-calculated for period_type=" ++ type ++ ". Expected " ++
            autoEnd) (some autoEnd)) ∧
    (isValidISODate e = false →
      resolvePeriodEndOrFail type start (some e) endFromDb =
        .fail "period_end must be YYYY-MM-DD" none) ∧
    (∀ msg exp, (createLimit limits u body).1 = .badRequest msg exp →
      (createLimit limits u body).2 = limits) ∧
    (∀ msg exp, (updateLimit limits u id body).1 = .badRequest msg exp →
      (updateLimit limits u id body).2 = limits) := by
  obtain ⟨p1, p2, p3⟩ := resolveEnd_parts type start e endFromDb htype
  exact ⟨p1, p2, p3,
    fun msg exp h => createLimit_badRequest limits u body msg exp h,
    fun msg exp h => updateLimit_badRequest limits u id body msg exp h⟩

theorem c6_period_end_mismatch_witness :
    resolvePeriodEndOrFail "month" ⟨2025, 1, 1⟩ (some ⟨2025, 1, 30⟩) none =
      .fail "period_end is auto-calculated for period_type=month. Expected 2025-01-31"
        (some "2025-01-31") := by
  obtain ⟨autoEnd, hae, hfail⟩ :=
    (c6_period_end_mismatch "month" ⟨2025, 1, 1⟩ ⟨2025, 1, 30⟩ none [] 1 1
      ⟨none, none, none, none, none, none⟩ (Or.inr (Or.inl rfl))).2.1
      (by decide) (by decide)
  have hval : calcAutoPeriodEnd "month" ⟨2025, 1, 1⟩ = some "2025-01-31" := by decide
  rw [hval] at hae
  have hend : autoEnd = "2025-01-31" := by injection hae with h2; exact h2.symm
  subst hend
  exact hfail

/-- C7 counterexample: user 1 is the sole non-blocked admin; demoting or
blocking them (themselves as caller, the only reachable way to target the
last non-blocked admin) is rejected with 400 "cannot change own role" /
"cannot block own account", not with 409 Conflict. -/
theorem c7_counterexample :
    countActiveAdmins [fixtureAdmin] = 1 ∧
    changeUserRole [fixtureAdmin] 1 1 (some "user") =
      (.badRequest "cannot change own role", [fixtureAdmin]) ∧
    setUserBlocked [fixtureAdmin] 1 1 (some (JSVal.vBool true)) =
      (.badRequest "cannot block own account", [fixtureAdmin]) := by
  refine ⟨rfl, ?_, ?_⟩ <;> decide

/-- C7 (amended): when at most one non-blocked admin exists, demoting an
admin or blocking an admin is rejected with 409 Conflict and the user
table is unchanged — provided the caller is not the target; when the
caller targets themselves the same request is rejected earlier with 400
("cannot change own role" / "cannot block own account"), again leaving
the table unchanged. -/
theorem c7_last_admin_protection (users : List UserRow) (callerId targetId : Int)
    (nr : String) (v : JSVal) (user : UserRow) :
    (0 < targetId → targetId ≠ callerId → ROLES.contains nr = true → nr ≠ "admin" →
      users.find? (fun x => x.id == targetId) = some user →
      user.role = "admin" → countActiveAdmins users ≤ 1 →
      changeUserRole users callerId targetId (some nr) =
        (.conflict "cannot remove role from the last active admin", users)) ∧
    (0 < targetId → parseBool v = some true → targetId ≠ callerId →
      users.find? (fun x => x.id == targetId) = some user →
      user.role = "admin" → countActiveAdmins users ≤ 1 →
      setUserBlocked users callerId targetId (some v) =
        (.conflict "cannot block the last active admin", users)) ∧
    (0 < targetId → targetId = callerId → ROLES.contains nr = true → nr ≠ "admin" →
      changeUserRole users callerId targetId (some nr) =
        (.badRequest "cannot change own role", users)) ∧
    (0 < targetId → parseBool v = some true → targetId = callerId →
      setUserBlocked users callerId targetId (some v) =
        (.badRequest "cannot block own account", users)) :=
  adminGuard_parts users callerId targetId nr v user

theorem c7_last_admin_protection_witness :
    changeUserRole [fixtureAdmin] 2 1 (some "user") =
      (.conflict "cannot remove role from the last active admin", [fixtureAdmin]) :=
  (c7_last_admin_protection [fixtureAdmin] 2 1 "user" (JSVal.vBool true) fixtureAdmin).1
    (by decide) (by decide) (by decide) (by decide) rfl rfl (by decide)

/-- C9: `POST /api/tariffs` treats any `is_active` other than the boolean
`false` (including an absent field) as a request for an active tariff:
the created row is active, the today-within-validity-range check is
applied (an out-of-range today yields 400 and persists nothing), and the
created row is the user's only active tariff afterwards; only an explicit
boolean `false` produces an inactive tariff, which is appended without
touching the other rows. -/
theorem c9_create_tariff_active_default (today : String) (tariffs : List TariffRow)
    (u : Int) (b : TariffCreateBody) :
    (∀ r, (createTariff today tariffs u b).1 = .created r →
        ((b.is_active ≠ some (JSVal.vBool false) → r.is_active = true) ∧
         (b.is_active = some (JSVal.vBool false) → r.is_active = false))) ∧
    (∀ r, (createTariff today tariffs u b).1 = .created r →
        b.is_active ≠ some (JSVal.vBool false) →
        ∀ t ∈ (createTariff today tariffs u b).2,
          t.user_id = u → t.is_active = true → t.id = r.id) ∧
    (b.is_active ≠ some (JSVal.vBool false) →
      strFalsy b.tariff_name = false → b.price_per_kwh.isSome → strFalsy b.valid_from = false →
      (strFalsy b.valid_to = false →
        isAfterStr (b.valid_from.getD "") (b.valid_to.getD "") = false) →
      assertCanBeActiveNow today (some (b.valid_from.getD "")) (strOrNull b.valid_to) = false →
      createTariff today tariffs u b = (.badRequest "Tariff cannot be active now.", tariffs)) ∧
    (b.is_active = some (JSVal.vBool false) →
      ∀ r, (createTariff today tariffs u b).1 = .created r →
        r.is_active = false ∧ (createTariff today tariffs u b).2 = tariffs ++ [r]) := by
  refine ⟨?_, ?_, ?_, ?_⟩
  · intro r hr
    rcases createTariff_spec today tariffs u b with ⟨_, hnc⟩ | ⟨hact, hresp, _⟩ |
      ⟨hact, hresp, _⟩
    · exact absurd hr (hnc r)
    · rw [hr] at hresp
      have hrr : newTariffRow tariffs u b = r := by injection hresp with h2; exact h2.symm
      subst hrr
      constructor
      · intro _; exact hact
      · intro hfalse
        rw [newTariffRow_active] at hact
        exact absurd hfalse hact
    · rw [hr] at hresp
      have hrr : newTariffRow tariffs u b = r := by injection hresp with h2; exact h2.symm
      subst hrr
      constructor
      · intro hne
        rw [← newTariffRow_active tariffs u b] at hne
        exact absurd hact (by simp [hne])
      · intro _; exact hact
  · intro r hr hne t ht htu htact
    rcases createTariff_spec today tariffs u b with ⟨_, hnc⟩ | ⟨hact, hresp, hst⟩ |
      ⟨hact, hresp, hst⟩
    · exact absurd hr (hnc r)
    · rw [hr] at hresp
      have hrr : newTariffRow tariffs u b = r := by injection hresp with h2; exact h2.symm
      rw [hst, hrr] at ht
      rcases List.mem_append.mp ht with ht | ht
      · obtain ⟨_, hcase⟩ := mem_active_deactivateOthers tariffs u r.id t ht htact
        rcases hcase with hcase | hcase
        · exact absurd htu hcase
        · exact hcase
      · rw [List.mem_singleton.mp ht]
    · exfalso
      have htrue := (newTariffRow_active tariffs u b).mpr hne
      rw [htrue] at hact
      exact Bool.noConfusion hact
  · intro hne h1 h2 h3 h4 h5
    have h2x : b.price_per_kwh.isNone = false := by
      cases hb : b.price_per_kwh
      · rw [hb] at h2; simp at h2
      · simp
    have hsecond : (!(strFalsy b.valid_to) && isAfterStr (b.valid_from.getD "")
        (b.valid_to.getD "")) = false := by
      cases hvt : strFalsy b.valid_to
      · rw [h4 hvt]; simp
      · simp
    have hma : (b.is_active != some (JSVal.vBool false)) = true := by
      simpa [bne_iff_ne] using hne
    unfold createTariff
    dsimp only
    rw [h1, h2x, h3, hsecond, hma, h5]
    simp
  · intro hfalse r hr
    rcases createTariff_spec today tariffs u b with ⟨_, hnc⟩ | ⟨hact, hresp, hst⟩ |
      ⟨hact, hresp, hst⟩
    · exact absurd hr (hnc r)
    · exfalso
      rw [newTariffRow_active] at hact
      exact absurd hfalse hact
    · rw [hr] at hresp
      have hrr : newTariffRow tariffs u b = r := by injection hresp with h2; exact h2.symm
      subst hrr
      exact ⟨hact, hst⟩

theorem c9_create_tariff_active_default_witness :
    createTariff "2024-01-01" [] 1
        ⟨some "Day tariff", some 4, some "2025-01-01", none, none⟩ =
      (.badRequest "Tariff cannot be active now.", []) :=
  (c9_create_tariff_active_default "2024-01-01" [] 1
      ⟨some "Day tariff", some 4, some "2025-01-01", none, none⟩).2.2.1
    (by decide) (by decide) rfl (by decide)
    (fun h => absurd h (by decide)) (by decide)

/-- C10: every successful `PATCH /api/consumption/:id` — whatever fields
the body carries, including a patch touching only notes or record_date —
recomputes the price snapshot and cost from the caller's single currently
active tariff, persisting `applied_price_per_kwh = round4(active price)`
and `cost = round4(round3(kwh) * round4(active price))` over the stored
snapshot; a notes/record_date-only patch keeps the stored kwh as the
`kwh` here; and when the caller has zero active tariffs the patch fails
with 400, with more than one it fails with 409 listing the active ids,
the record unchanged in both cases. -/
theorem c10_patch_recomputes_cost (tariffs : List TariffRow) (appliances : List ApplianceRow)
    (records : List ConsumptionRow) (u id : Int) (body : ConsumptionPatchBody)
    (rdOpt : Option Ymd) (notesB : Option (Option String))
    (row : ConsumptionRow) (t : TariffRow) (nd : Ymd) :
    (records.find? (fun r => r.id == id && r.user_id == u) = some row →
      (body.consumption_kwh.isSome && body.usage_hours.isSome) = false →
      (match body.record_date with
       | none => ymdOfCivil row.record_date
       | some dd => dd) = nd →
      isValidISODate nd = true →
      ((getActiveTariffStrict tariffs u = .noActive →
        patchConsumptionRecord tariffs appliances records u id body =
          (.badRequest "No active tariff. Please create a tariff and set it as active.",
            records)) ∧
       (∀ ids, getActiveTariffStrict tariffs u = .manyActive ids →
        patchConsumptionRecord tariffs appliances records u id body =
          (.conflict ids, records)))) ∧
    (∀ r : ConsumptionRow,
      (patchConsumptionRecord tariffs appliances records u id body).1 = .updated r →
      ∃ (row0 : ConsumptionRow) (t0 : TariffRow) (kwh : ℚ),
        records.find? (fun x => x.id == id && x.user_id == u) = some row0 ∧
        getActiveTariffStrict tariffs u = .one t0 ∧
        r.applied_price_per_kwh = toFixedQ t0.price_per_kwh 4 ∧
        r.consumption_kwh = toFixedQ kwh 3 ∧
        r.cost = toFixedQ (toFixedQ kwh 3 * toFixedQ t0.price_per_kwh 4) 4 ∧
        (patchConsumptionRecord tariffs appliances records u id body).2 =
          records.map (fun x => if x.id == row0.id then r else x)) ∧
    (records.find? (fun r => r.id == id && r.user_id == u) = some row →
      (match rdOpt with
       | none => ymdOfCivil row.record_date
       | some dd => dd) = nd →
      isValidISODate nd = true →
      getActiveTariffStrict tariffs u = .one t →
      0 < row.consumption_kwh → 0 ≤ t.price_per_kwh →
      patchConsumptionRecord tariffs appliances records u id
          ⟨none, none, none, rdOpt, notesB⟩ =
        (.updated
          { row with
            consumption_kwh := toFixedQ row.consumption_kwh 3,
            applied_price_per_kwh := toFixedQ t.price_per_kwh 4,
            cost := toFixedQ (toFixedQ row.consumption_kwh 3 * toFixedQ t.price_per_kwh 4) 4,
            record_date := parseDateUTC nd,
            notes := match notesB with
                     | none => row.notes
                     | some v => v.bind fun s => if s = "" then none else some s },
          records.map (fun r =>
            if r.id == row.id then
              { row with
                consumption_kwh := toFixedQ row.consumption_kwh 3,
                applied_price_per_kwh := toFixedQ t.price_per_kwh 4,
                cost := toFixedQ (toFixedQ row.consumption_kwh 3 *
                  toFixedQ t.price_per_kwh 4) 4,
                record_date := parseDateUTC nd,
                notes := match notesB with
                         | none => row.notes
                         | some v => v.bind fun s => if s = "" then none else some s }
            else r))) :=
  ⟨fun hfind hboth hdate hvalid =>
      patchConsumption_tariff_errors tariffs appliances records u id body row nd
        hfind hboth hdate hvalid,
    fun r h => patchConsumption_success tariffs appliances records u id body r h,
    fun hfind hdate hvalid hone hkwh hprice =>
      patchConsumption_dateNotes_eval tariffs appliances records u id rdOpt notesB row t nd
        hfind hdate hvalid hone hkwh hprice⟩

theorem c10_patch_recomputes_cost_witness :
    0 < fixtureRecordDecember.consumption_kwh ∧
    patchConsumptionRecord [fixtureTariffActive] [] [fixtureRecordDecember] 1 1
        ⟨none, none, none, some ⟨2025, 12, 20⟩, none⟩ =
      (.updated
        { fixtureRecordDecember with
          consumption_kwh := toFixedQ fixtureRecordDecember.consumption_kwh 3,
          applied_price_per_kwh := toFixedQ fixtureTariffActive.price_per_kwh 4,
          cost := toFixedQ (toFixedQ fixtureRecordDecember.consumption_kwh 3 *
            toFixedQ fixtureTariffActive.price_per_kwh 4) 4,
          record_date := parseDateUTC ⟨2025, 12, 20⟩,
          notes := match (none : Option (Option String)) with
                   | none => fixtureRecordDecember.notes
                   | some v => v.bind fun s => if s = "" then none else some s },
        [fixtureRecordDecember].map (fun r =>
          if r.id == fixtureRecordDecember.id then
            { fixtureRecordDecember with
              consumption_kwh := toFixedQ fixtureRecordDecember.consumption_kwh 3,
              applied_price_per_kwh := toFixedQ fixtureTariffActive.price_per_kwh 4,
              cost := toFixedQ (toFixedQ fixtureRecordDecember.consumption_kwh 3 *
                toFixedQ fixtureTariffActive.price_per_kwh 4) 4,
              record_date := parseDateUTC ⟨2025, 12, 20⟩,
              notes := match (none : Option (Option String)) with
                       | none => fixtureRecordDecember.notes
                       | some v => v.bind fun s => if s = "" then none else some s }
          else r)) :=
  ⟨by norm_num [fixtureRecordDecember],
    (c10_patch_recomputes_cost [fixtureTariffActive] [] [fixtureRecordDecember] 1 1
        ⟨none, none, none, some ⟨2025, 12, 20⟩, none⟩ (some ⟨2025, 12, 20⟩) none
        fixtureRecordDecember fixtureTariffActive ⟨2025, 12, 20⟩).2.2
      rfl rfl (by decide) rfl (by norm_num [fixtureRecordDecember])
      (by norm_num [fixtureTariffActive])⟩

end EnergyTracker
